import Mathlib

/-!
Verification of the REST2 radiative-transfer and calibration engine
(`app/services/radiation.py` and `app/utils/metrics.py`).

Embedding conventions:
* IEEE doubles are modelled by exact rationals (`ℚ`); every claim on this
  engine is about algebraic structure (masking, clipping, aggregation,
  selection), so exact arithmetic is the right idealization.
* The NaN missing sentinel is modelled by `Option ℚ` (with `none` = NaN)
  exactly at the places where the code explicitly produces or tests NaN:
  the quality-control step (`x[x < 0] = np.nan`), `np.nan_to_num`, and the
  NaN masks of the metric functions.  Interior pipeline arithmetic, where
  the code never branches on NaN, stays in plain `ℚ`.
* The transcendental library routines (`np.cos`, `np.exp`, `np.log`,
  fractional `np.power` on real and complex arguments, `np.sqrt`, `np.pi`,
  and `scipy.optimize.minimize(method="BFGS")`) are external functions the
  code calls; they are fields of the `NpOps` parameter structure, and every
  theorem holds for an arbitrary interpretation of them (with explicitly
  named, dischargeable hypotheses where a claim needs a concrete value such
  as `exp 0 = 1`).  Complex arithmetic that the code performs itself
  (addition, multiplication, reciprocal of `ℚ`-valued complex numbers) is
  embedded exactly.
* A polars `DataFrame` column `valor` is modelled as the list of its
  values; the `time` column only carries labels (the input contract fixes a
  single ascending timestamp index shared by all variables, making
  `sort("time")` the identity), so it is dropped.
* Python `raise ValueError` is modelled with `Except String`.
-/

namespace Rest2

/-- External numeric routines used by the engine: numpy transcendental
functions, the complex power used for numerical stabilization, and the
scipy BFGS minimizer (which consumes an objective that may raise and may
return NaN, and returns the iterate `res.x`). -/
structure NpOps where
  pi : ℚ
  cos : ℚ → ℚ
  exp : ℚ → ℚ
  log : ℚ → ℚ
  rpow : ℚ → ℚ → ℚ
  cpow : ℚ × ℚ → ℚ → ℚ × ℚ
  cabs : ℚ × ℚ → ℚ
  sqrt : ℚ → ℚ
  minimizeBFGS : (List ℚ → Except String (Option ℚ)) → List ℚ → List ℚ

/-- Complex numbers with rational components, as produced by
`np.array(..., dtype=complex)`. -/
abbrev Cplx := ℚ × ℚ

/-- Injection of a real value into the complex plane. -/
def cOfReal (r : ℚ) : Cplx := (r, 0)

/-- Complex addition. -/
def cAdd (a b : Cplx) : Cplx := (a.1 + b.1, a.2 + b.2)

/-- Complex subtraction. -/
def cSub (a b : Cplx) : Cplx := (a.1 - b.1, a.2 - b.2)

/-- Complex multiplication. -/
def cMul (a b : Cplx) : Cplx := (a.1 * b.1 - a.2 * b.2, a.1 * b.2 + a.2 * b.1)

/-- Scaling of a complex number by a real factor. -/
def cSMul (r : ℚ) (a : Cplx) : Cplx := (r * a.1, r * a.2)

/-- Complex reciprocal, the meaning of `np.power(z, -1)` on a complex
array. -/
def cInv (a : Cplx) : Cplx :=
  let d := a.1 ^ 2 + a.2 ^ 2
  (a.1 / d, -a.2 / d)

/-- Complex division. -/
def cDiv (a b : Cplx) : Cplx := cMul a (cInv b)

/-- Elementwise product of two numpy arrays. -/
def vMul (a b : List ℚ) : List ℚ := List.zipWith (fun x y => x * y) a b

/-- Elementwise sum of two numpy arrays. -/
def vAdd (a b : List ℚ) : List ℚ := List.zipWith (fun x y => x + y) a b

/-- Elementwise quotient of two numpy arrays. -/
def vDiv (a b : List ℚ) : List ℚ := List.zipWith (fun x y => x / y) a b

/-- Broadcast product of a scalar with a numpy array. -/
def svMul (c : ℚ) (a : List ℚ) : List ℚ := a.map (fun x => c * x)

/-- Broadcast difference of a scalar and a numpy array. -/
def svSub (c : ℚ) (a : List ℚ) : List ℚ := a.map (fun x => c - x)

/-- Elementwise real `np.power` with a fixed exponent. -/
def vPow (ops : NpOps) (a : List ℚ) (e : ℚ) : List ℚ :=
  a.map (fun x => ops.rpow x e)

/-- Ternary elementwise zip, for formulas drawing on three aligned
arrays. -/
def zipWith3 (f : ℚ → ℚ → ℚ → ℚ) : List ℚ → List ℚ → List ℚ → List ℚ
  | a :: as, b :: bs, c :: cs => f a b c :: zipWith3 f as bs cs
  | _, _, _ => []

/-- Conversion from radians to degrees, the meaning of `np.rad2deg`. -/
def rad2deg (ops : NpOps) (z : ℚ) : ℚ := z * 180 / ops.pi

/-- Container mirroring `AirMassResults`. -/
structure AirMassResults where
  rayleigh_scattering : List ℚ
  rayleigh_scattering_scaled : List ℚ
  ozone_absorption : List ℚ
  water_vapour_absorption : List ℚ
  aerosol_extinction : List ℚ
  angstrom_turbidity : List ℚ

/-- Shared shape of the five air-mass formulas of
`REST2._evaluate_air_masses`: the magnitude of the reciprocal of
`cos z + a * Z^b / (c - Z)^d` evaluated over complex `Z` = zenith in
degrees. -/
def airMassFormula (ops : NpOps) (a b c d : ℚ) (z : ℚ) : ℚ :=
  let Zc : Cplx := cOfReal (z * 180 / ops.pi)
  ops.cabs (cInv (cAdd (cOfReal (ops.cos z))
    (cDiv (cSMul a (ops.cpow Zc b)) (ops.cpow (cSub (cOfReal c) Zc) d))))

/-- Air mass for aerosol extinction (variable `ama`). -/
def amaScalar (ops : NpOps) (z : ℚ) : ℚ :=
  airMassFormula ops 0.16851 0.18198 95.318 1.9542 z

/-- Air mass for water-vapour absorption (variable `amw`). -/
def amwScalar (ops : NpOps) (z : ℚ) : ℚ :=
  airMassFormula ops 0.10648 0.11423 93.781 1.9203 z

/-- Air mass for ozone absorption (variable `amo`). -/
def amoScalar (ops : NpOps) (z : ℚ) : ℚ :=
  airMassFormula ops 1.0651 0.6379 101.8 2.2694 z

/-- Air mass for Rayleigh scattering (variable `amR`). -/
def amRScalar (ops : NpOps) (z : ℚ) : ℚ :=
  airMassFormula ops 0.48353 0.095846 96.741 1.754 z

/-- Pressure-scaled Rayleigh air mass (variable `amRe`): the magnitude of
`(p / 1013.25)` times the complex reciprocal. -/
def amReScalar (ops : NpOps) (p z : ℚ) : ℚ :=
  let Zc : Cplx := cOfReal (z * 180 / ops.pi)
  ops.cabs (cSMul (p / 1013.25) (cInv (cAdd (cOfReal (ops.cos z))
    (cDiv (cSMul 0.48353 (ops.cpow Zc 0.095846))
      (ops.cpow (cSub (cOfReal 96.741) Zc) 1.754)))))

/-- Embedding of `REST2._evaluate_air_masses`: the five air-mass arrays
plus the Angstrom turbidity `beta = od550 / 0.55^(-alpha)` clipped by the
two sequential masked assignments (`beta[beta > 1.1] = 1.1` then
`beta[beta < 0] = 0`). -/
def evaluateAirMasses (ops : NpOps) (zenith_angle angstrom_exponent
    pressure optical_depth_550nm : List ℚ) : AirMassResults :=
  let ama := zenith_angle.map (amaScalar ops)
  let amw := zenith_angle.map (amwScalar ops)
  let amo := zenith_angle.map (amoScalar ops)
  let amR := zenith_angle.map (amRScalar ops)
  let amRe := List.zipWith (amReScalar ops) pressure zenith_angle
  let ang_beta := List.zipWith
    (fun od a => od / ops.rpow 0.55 (-1 * a))
    optical_depth_550nm angstrom_exponent
  let ang_beta := ang_beta.map (fun x => if x > 1.1 then 1.1 else x)
  let ang_beta := ang_beta.map (fun x => if x < 0 then 0 else x)
  { rayleigh_scattering := amR
    rayleigh_scattering_scaled := amRe
    ozone_absorption := amo
    water_vapour_absorption := amw
    aerosol_extinction := ama
    angstrom_turbidity := ang_beta }

/-- Container mirroring `BandRadiationResults`; `Ba` is optional in the
source (`ArrayLike | None = None`). -/
structure BandRadiationResults where
  TR : List ℚ
  Tg : List ℚ
  To : List ℚ
  Tn : List ℚ
  Tw : List ℚ
  TA : List ℚ
  Tn166 : List ℚ
  Tw166 : List ℚ
  BR : List ℚ
  F : List ℚ
  TAS : List ℚ
  rs : List ℚ
  Ba : Option (List ℚ)

/-- Rayleigh transmittance formula of band 1, per element of `amRe`. -/
def tr1Scalar (m : ℚ) : ℚ :=
  (1 + 1.8169 * m - 0.033454 * m ^ 2) / (1 + 2.063 * m + 0.31978 * m ^ 2)

/-- Uniformly-mixed-gas transmittance formula of band 1. -/
def tg1Scalar (m : ℚ) : ℚ :=
  (1 + 0.95885 * m + 0.012871 * m ^ 2) / (1 + 0.96321 * m + 0.015455 * m ^ 2)

/-- Ozone transmittance formula of band 1 (`f1..f3` and `To1`). -/
def to1Scalar (o m : ℚ) : ℚ :=
  let f1 := o * (10.979 - 8.5421 * o) / (1 + 2.0115 * o + 40.189 * o ^ 2)
  let f2 := o * (-0.027589 - 0.005138 * o) / (1 - 2.4857 * o + 13.942 * o ^ 2)
  let f3 := o * (10.995 - 5.5001 * o) / (1 + 1.6784 * o + 42.406 * o ^ 2)
  (1 + f1 * m + f2 * m ^ 2) / (1 + f3 * m)

/-- Uncapped NO2 transmittance formula of band 1 (`g1..g3` applied at an
arbitrary air mass `m`, both the true `amw` and the reference 1.66). -/
def tn1Scalar (un m : ℚ) : ℚ :=
  let g1 := (0.17499 + 41.654 * un - 2146.4 * un ^ 2) / (1 + 22295.0 * un ^ 2)
  let g2 := un * (-1.2134 + 59.324 * un) / (1 + 8847.8 * un ^ 2)
  let g3 := (0.17499 + 61.658 * un + 9196.4 * un ^ 2) / (1 + 74109.0 * un ^ 2)
  (1 + g1 * m + g2 * m ^ 2) / (1 + g3 * m)

/-- Water-vapour transmittance formula of band 1 (`h1,h2`), at an
arbitrary air mass. -/
def tw1Scalar (w m : ℚ) : ℚ :=
  let h1 := w * (0.065445 + 0.00029901 * w) / (1 + 1.2728 * w)
  let h2 := w * (0.065687 + 0.0013218 * w) / (1 + 1.2008 * w)
  (1 + h1 * m) / (1 + h2 * m)

/-- Aerosol wavelength exponent of band 1 (`d0..d3` and `lam1`), from the
Angstrom exponent and `ua1 = log(1 + ama * beta)`. -/
def lam1Scalar (a u : ℚ) : ℚ :=
  let d0 := 0.57664 - 0.024743 * a
  let d1 := (0.093942 - 0.2269 * a + 0.12848 * a ^ 2) / (1 + 0.6418 * a)
  let d2 := (-0.093819 + 0.36668 * a - 0.12775 * a ^ 2) / (1 - 0.11651 * a)
  let d3 := a * (0.15232 - 0.087214 * a + 0.012664 * a ^ 2) /
    (1 - 0.90454 * a + 0.26167 * a ^ 2)
  (d0 + d1 * u + d2 * u ^ 2) / (1 + d3 * u ^ 2)

/-- Aerosol scattering correction factor of band 1 (`g0..g2` and `F1`). -/
def f1ScatterScalar (m t : ℚ) : ℚ :=
  let g0 := (3.715 + 0.368 * m + 0.036294 * m ^ 2) / (1 + 0.0009391 * m ^ 2)
  let g1 := (-0.164 - 0.72567 * m + 0.20701 * m ^ 2) / (1 + 0.0019012 * m ^ 2)
  let g2 := (-0.052288 + 0.31902 * m + 0.17871 * m ^ 2) /
    (1 + 0.0069592 * m ^ 2)
  (g0 + g1 * t) / (1 + g2 * t)

/-- Sky albedo formula of band 1. -/
def rs1Scalar (a ab : ℚ) : ℚ :=
  (0.13363 + 0.00077358 * a +
    ab * (0.37567 + 0.22946 * a) / (1 - 0.10832 * a)) /
  (1 + ab * (0.84057 + 0.68683 * a) / (1 - 0.08158 * a))

/-- Forward-scatter fraction of band 1 (`BR1`). -/
def br1Scalar (m : ℚ) : ℚ :=
  0.5 * (0.89013 - 0.0049558 * m + 0.000045721 * m ^ 2)

/-- Aerosol forward-scatterance factor (`Ba`), common to both bands. -/
def baScalar (ops : NpOps) (z : ℚ) : ℚ :=
  1 - ops.exp (-0.6931 - 1.8326 * ops.cos z)

/-- Embedding of `REST2._band_1_radiation`.  Arrays that the source builds
coefficientwise (`f1..f3`, `g1..g3`, `h1..h2`, `d0..d3`) are computed
pointwise through the scalar formula functions above; the values agree
entry by entry. -/
def band1Radiation (ops : NpOps) (ozone nitrogen_dioxide water_vapour
    angstrom_exponent zenith_angle : List ℚ) (air_masses : AirMassResults) :
    BandRadiationResults :=
  let amR := air_masses.rayleigh_scattering
  let amRe := air_masses.rayleigh_scattering_scaled
  let amo := air_masses.ozone_absorption
  let amw := air_masses.water_vapour_absorption
  let ama := air_masses.aerosol_extinction
  let AB1 := air_masses.angstrom_turbidity
  let alph1 := angstrom_exponent
  let TR1 := amRe.map tr1Scalar
  let Tg1 := amRe.map tg1Scalar
  let To1 := List.zipWith to1Scalar ozone amo
  let Tn1_middle := List.zipWith tn1Scalar nitrogen_dioxide amw
  let Tn1 := Tn1_middle.map (fun x => if x > 1 then 1 else x)
  let Tn1166_middle := nitrogen_dioxide.map (fun un => tn1Scalar un 1.66)
  let Tn1166 := Tn1166_middle.map (fun x => if x > 1 then 1 else x)
  let Tw1 := List.zipWith tw1Scalar water_vapour amw
  let Tw1166 := water_vapour.map (fun w => tw1Scalar w 1.66)
  let ua1 := List.zipWith (fun m ab => ops.log (1 + m * ab)) ama AB1
  let lam1 := List.zipWith lam1Scalar alph1 ua1
  let ta1 := zipWith3 (fun ab lam a => abs (ab * ops.rpow lam (-1 * a)))
    AB1 lam1 alph1
  let TA1 := List.zipWith (fun m t => ops.exp (-m * t)) ama ta1
  let TAS1 := List.zipWith (fun m t => ops.exp (-m * 0.92 * t)) ama ta1
  let BR1 := amR.map br1Scalar
  let Ba := zenith_angle.map (baScalar ops)
  let F1 := List.zipWith f1ScatterScalar ama ta1
  let rs1 := List.zipWith rs1Scalar alph1 AB1
  { TR := TR1, Tg := Tg1, To := To1, Tn := Tn1, Tw := Tw1, TA := TA1
    Tn166 := Tn1166, Tw166 := Tw1166, BR := BR1, F := F1, TAS := TAS1
    rs := rs1, Ba := some Ba }

/-- Rayleigh transmittance formula of band 2. -/
def tr2Scalar (m : ℚ) : ℚ :=
  (1 - 0.010394 * m) / (1 - 0.00011042 * m ^ 2)

/-- Uniformly-mixed-gas transmittance formula of band 2. -/
def tg2Scalar (m : ℚ) : ℚ :=
  (1 + 0.27284 * m - 0.00063699 * m ^ 2) / (1 + 0.30306 * m)

/-- Water-vapour transmittance formula of band 2 (`c1..c4`), at an
arbitrary air mass. -/
def tw2Scalar (w m : ℚ) : ℚ :=
  let c1 := w * (19.566 - 1.6506 * w + 1.0672 * w ^ 2) /
    (1 + 5.4248 * w + 1.6005 * w ^ 2)
  let c2 := w * (0.50158 - 0.14732 * w + 0.047584 * w ^ 2) /
    (1 + 1.1811 * w + 1.0699 * w ^ 2)
  let c3 := w * (21.286 - 0.39232 * w + 1.2692 * w ^ 2) /
    (1 + 4.8318 * w + 1.412 * w ^ 2)
  let c4 := w * (0.70992 - 0.23155 * w + 0.096514 * w ^ 2) /
    (1 + 0.44907 * w + 0.75425 * w ^ 2)
  (1 + c1 * m + c2 * m ^ 2) / (1 + c3 * m + c4 * m ^ 2)

/-- Aerosol wavelength exponent of band 2 (`e0..e3` and `lam2`). -/
def lam2Scalar (a u : ℚ) : ℚ :=
  let e0 := (1.183 - 0.022989 * a + 0.020829 * a ^ 2) / (1 + 0.11133 * a)
  let e1 := (-0.50003 - 0.18329 * a + 0.23835 * a ^ 2) / (1 + 1.6756 * a)
  let e2 := (-0.50001 + 1.1414 * a + 0.0083589 * a ^ 2) / (1 + 11.168 * a)
  let e3 := (-0.70003 - 0.73587 * a + 0.51509 * a ^ 2) / (1 + 4.7665 * a)
  (e0 + e1 * u + e2 * u ^ 2) / (1 + e3 * u)

/-- Aerosol scattering correction factor of band 2 (`h0..h2` and `F2`). -/
def f2ScatterScalar (ops : NpOps) (m t : ℚ) : ℚ :=
  let h0 := (3.4352 + 0.65267 * m + 0.00034328 * m ^ 2) /
    (1 + 0.034388 * ops.rpow m 1.5)
  let h1 := (1.231 - 1.63853 * m + 0.20667 * m ^ 2) /
    (1 + 0.1451 * ops.rpow m 1.5)
  let h2 := (0.8889 - 0.55063 * m + 0.50152 * m ^ 2) /
    (1 + 0.14865 * ops.rpow m 1.5)
  (h0 + h1 * t) / (1 + h2 * t)

/-- Sky albedo formula of band 2. -/
def rs2Scalar (a ab : ℚ) : ℚ :=
  (0.010191 + 0.00085547 * a +
    ab * (0.14618 + 0.062758 * a) / (1 - 0.19402 * a)) /
  (1 + ab * (0.58101 + 0.17426 * a) / (1 - 0.17586 * a))

/-- Embedding of `REST2._band_2_radiation`.  The scalar constants of the
source (`To2 = 1`, `Tn2 = 1`, `Tn2166 = 1`, `BR2 = 0.5`) broadcast over
the timestep axis and are represented by constant arrays of that length. -/
def band2Radiation (ops : NpOps) (water_vapour angstrom_exponent
    zenith_angle : List ℚ) (air_masses : AirMassResults) :
    BandRadiationResults :=
  let amRe := air_masses.rayleigh_scattering_scaled
  let amw := air_masses.water_vapour_absorption
  let ama := air_masses.aerosol_extinction
  let AB2 := air_masses.angstrom_turbidity
  let alph2 := angstrom_exponent
  let TR2 := amRe.map tr2Scalar
  let Tg2 := amRe.map tg2Scalar
  let To2 := amRe.map (fun _ => (1 : ℚ))
  let Tn2 := amRe.map (fun _ => (1 : ℚ))
  let Tn2166 := amRe.map (fun _ => (1 : ℚ))
  let Tw2 := List.zipWith tw2Scalar water_vapour amw
  let Tw2166 := water_vapour.map (fun w => tw2Scalar w 1.66)
  let ua2 := List.zipWith (fun m ab => ops.log (1 + m * ab)) ama AB2
  let lam2 := List.zipWith lam2Scalar alph2 ua2
  let ta2 := zipWith3 (fun ab lam a =>
    ops.cabs (cSMul ab (ops.cpow (cOfReal lam) (-a)))) AB2 lam2 alph2
  let TA2 := List.zipWith (fun m t => ops.exp (-1 * m * t)) ama ta2
  let TAS2 := List.zipWith (fun m t => ops.exp (-1 * m * 0.84 * t)) ama ta2
  let BR2 := amRe.map (fun _ => (0.5 : ℚ))
  let Ba := zenith_angle.map (baScalar ops)
  let F2 := List.zipWith (f2ScatterScalar ops) ama ta2
  let rs2 := List.zipWith rs2Scalar alph2 AB2
  { TR := TR2, Tg := Tg2, To := To2, Tn := Tn2, Tw := Tw2, TA := TA2
    Tn166 := Tn2166, Tw166 := Tw2166, BR := BR2, F := F2, TAS := TAS2
    rs := rs2, Ba := some Ba }

/-- Container mirroring `CloudTransmittanceResults`. -/
structure CloudTransmittanceResults where
  direct : List ℚ
  diffuse : List ℚ
deriving DecidableEq

/-- Embedding of `REST2._cloud_transmittance`: grey-body direct and
diffuse cloud transmittance from COD and the free parameters. -/
def cloudTransmittance (ops : NpOps) (cod : List ℚ) (mu0 g : ℚ) :
    CloudTransmittanceResults :=
  let direct_transmittance := cod.map (fun c => ops.exp (-1 * c / (0.5 + mu0)))
  let diffuse_transmittance := cod.map
    (fun c => 1 / (1 + ((1 - g) * c)) - ops.exp (-1 * c / (0.5 + mu0)))
  { direct := direct_transmittance, diffuse := diffuse_transmittance }

/-- Container mirroring `BandIrradianceResults`. -/
structure BandIrradianceResults where
  direct_beam : List ℚ
  diffuse_on_absorbing_ground : List ℚ
  multiple_reflections : List ℚ
deriving DecidableEq

/-- Shared body of `REST2._band_1_irradiance` and
`REST2._band_2_irradiance` once the band fraction of extraterrestrial
irradiance is fixed: direct beam, diffuse on absorbing ground, and
ground-atmosphere multiple reflections, for the clear and the cloud
stream. -/
def bandIrradianceCore (ops : NpOps) (fraction : ℚ)
    (extraterrestrial_radiation zenith_angle surface_albedo : List ℚ)
    (radiation : BandRadiationResults) (ba : List ℚ)
    (transmittance : CloudTransmittanceResults) :
    BandIrradianceResults × BandIrradianceResults :=
  let rg := surface_albedo
  let coszv := zenith_angle.map ops.cos
  let E0n := extraterrestrial_radiation.map (fun e => e * fraction)
  let Ebn := vMul (vMul (vMul (vMul (vMul (vMul E0n radiation.TR)
    radiation.Tg) radiation.To) radiation.Tn) radiation.Tw) radiation.TA
  let Ebn_cloud := vMul Ebn transmittance.direct
  let scatter := vAdd
    (vMul radiation.BR (vMul (svSub 1 radiation.TR)
      (vPow ops radiation.TA 0.25)))
    (vMul ba (vMul radiation.F (vMul radiation.TR
      (svSub 1 (vPow ops radiation.TAS 0.25)))))
  let Edp := vMul E0n (vMul coszv (vMul radiation.To (vMul radiation.Tg
    (vMul radiation.Tn166 (vMul radiation.Tw166 scatter)))))
  let Edp_cloud := vMul Edp transmittance.diffuse
  let rgrs := vMul rg radiation.rs
  let Edd := vMul rgrs (vDiv (vAdd (vMul Ebn coszv) Edp) (svSub 1 rgrs))
  let Edd_cloud := vMul rgrs
    (vDiv (vAdd (vMul Ebn_cloud coszv) Edp_cloud) (svSub 1 rgrs))
  ({ direct_beam := Ebn
     diffuse_on_absorbing_ground := Edp
     multiple_reflections := Edd },
   { direct_beam := Ebn_cloud
     diffuse_on_absorbing_ground := Edp_cloud
     multiple_reflections := Edd_cloud })

/-- Embedding of `REST2._band_1_irradiance` (band fraction 0.46512),
raising when `Ba` is absent. -/
def band1Irradiance (ops : NpOps)
    (extraterrestrial_radiation zenith_angle surface_albedo : List ℚ)
    (radiation : BandRadiationResults)
    (transmittance : CloudTransmittanceResults) :
    Except String (BandIrradianceResults × BandIrradianceResults) :=
  match radiation.Ba with
  | none =>
      Except.error "Ba must not be None for band 1 irradiance calculation"
  | some ba =>
      Except.ok (bandIrradianceCore ops 0.46512 extraterrestrial_radiation
        zenith_angle surface_albedo radiation ba transmittance)

/-- Embedding of `REST2._band_2_irradiance` (band fraction 0.51951),
raising when `Ba` is absent. -/
def band2Irradiance (ops : NpOps)
    (extraterrestrial_radiation zenith_angle surface_albedo : List ℚ)
    (radiation : BandRadiationResults)
    (transmittance : CloudTransmittanceResults) :
    Except String (BandIrradianceResults × BandIrradianceResults) :=
  match radiation.Ba with
  | none =>
      Except.error "Ba must not be None for band 2 irradiance calculation"
  | some ba =>
      Except.ok (bandIrradianceCore ops 0.51951 extraterrestrial_radiation
        zenith_angle surface_albedo radiation ba transmittance)

/-- Masked in-place assignment `a[np.rad2deg(zenith) > 90] = 0`: the
night-forcing applied to a stream aligned with the zenith array. -/
def maskNightZero (ops : NpOps) (a zenith_angle : List ℚ) : List ℚ :=
  List.zipWith (fun x z => if rad2deg ops z > 90 then 0 else x)
    a zenith_angle

/-- Quality control `a[a < 0] = np.nan`: every strictly negative entry
becomes the missing sentinel, every other entry is kept. -/
def qualityControl (a : List ℚ) : List (Option ℚ) :=
  a.map (fun x => if x < 0 then none else some x)

/-- Aggregated streams of one sky model before quality control, in source
order: direct-horizontal (`Ebh`), DNI, DHI, GHI, tracker GHI. -/
structure RawStreams where
  ebh : List ℚ
  dni : List ℚ
  dhi : List ℚ
  ghi : List ℚ
  ghi_tracker : List ℚ
deriving DecidableEq

/-- Aggregated streams of one sky model after quality control, where a
negative value has become the missing sentinel `none`. -/
structure SkyStreams where
  ghi : List (Option ℚ)
  ghi_tracker : List (Option ℚ)
  dni : List (Option ℚ)
  dhi : List (Option ℚ)
deriving DecidableEq

/-- Lines 758-771 of `REST2._clear_sky_irradiance`: band aggregation and
the zenith correction, before the quality-control step. -/
def clearSkyRaw (ops : NpOps) (zenith_angle : List ℚ)
    (band1_clear_sky band2_clear_sky : BandIrradianceResults) : RawStreams :=
  let Ebn1 := band1_clear_sky.direct_beam
  let Ebn2 := band2_clear_sky.direct_beam
  let Edp1 := band1_clear_sky.diffuse_on_absorbing_ground
  let Edp2 := band2_clear_sky.diffuse_on_absorbing_ground
  let Edd1 := band1_clear_sky.multiple_reflections
  let Edd2 := band2_clear_sky.multiple_reflections
  let Ebh_cs := vMul (vAdd Ebn1 Ebn2) (zenith_angle.map ops.cos)
  let dni_cs := vAdd Ebn1 Ebn2
  let dni_cs := maskNightZero ops dni_cs zenith_angle
  let Ebh_cs := maskNightZero ops Ebh_cs zenith_angle
  let dhi_cs := vAdd (vAdd (vAdd Edp1 Edd1) Edp2) Edd2
  let dhi_cs := maskNightZero ops dhi_cs zenith_angle
  let ghi_cs := vAdd Ebh_cs dhi_cs
  let ghi_tracker_cs := vAdd dni_cs dhi_cs
  { ebh := Ebh_cs, dni := dni_cs, dhi := dhi_cs, ghi := ghi_cs
    ghi_tracker := ghi_tracker_cs }

/-- Embedding of `REST2._clear_sky_irradiance`: aggregation, zenith
correction, then the negative-value quality control on all four
streams. -/
def clearSkyIrradiance (ops : NpOps) (zenith_angle : List ℚ)
    (band1_clear_sky band2_clear_sky : BandIrradianceResults) : SkyStreams :=
  let raw := clearSkyRaw ops zenith_angle band1_clear_sky band2_clear_sky
  { ghi := qualityControl raw.ghi
    ghi_tracker := qualityControl raw.ghi_tracker
    dni := qualityControl raw.dni
    dhi := qualityControl raw.dhi }

/-- Lines 796-809 of `REST2._cloud_sky_irradiance`: band aggregation and
the zenith correction, before the quality-control step. -/
def cloudSkyRaw (ops : NpOps) (zenith_angle : List ℚ)
    (band1_cloud_sky band2_cloud_sky : BandIrradianceResults) : RawStreams :=
  let Ebn1_cloud := band1_cloud_sky.direct_beam
  let Ebn2_cloud := band2_cloud_sky.direct_beam
  let Edp1_cloud := band1_cloud_sky.diffuse_on_absorbing_ground
  let Edp2_cloud := band2_cloud_sky.diffuse_on_absorbing_ground
  let Edd1_cloud := band1_cloud_sky.multiple_reflections
  let Edd2_cloud := band2_cloud_sky.multiple_reflections
  let Ebh := vMul (vAdd Ebn1_cloud Ebn2_cloud) (zenith_angle.map ops.cos)
  let dni := vAdd Ebn1_cloud Ebn2_cloud
  let dni := maskNightZero ops dni zenith_angle
  let Ebh := maskNightZero ops Ebh zenith_angle
  let dhi := vAdd (vAdd (vAdd Edp1_cloud Edd1_cloud) Edp2_cloud) Edd2_cloud
  let dhi := maskNightZero ops dhi zenith_angle
  let ghi := vAdd Ebh dhi
  let ghi_tracker := vAdd dni dhi
  { ebh := Ebh, dni := dni, dhi := dhi, ghi := ghi
    ghi_tracker := ghi_tracker }

/-- Embedding of `REST2._cloud_sky_irradiance`: aggregation, zenith
correction, then the negative-value quality control on all four
streams. -/
def cloudSkyIrradiance (ops : NpOps) (zenith_angle : List ℚ)
    (band1_cloud_sky band2_cloud_sky : BandIrradianceResults) : SkyStreams :=
  let raw := cloudSkyRaw ops zenith_angle band1_cloud_sky band2_cloud_sky
  { ghi := qualityControl raw.ghi
    ghi_tracker := qualityControl raw.ghi_tracker
    dni := qualityControl raw.dni
    dhi := qualityControl raw.dhi }

/-- Container mirroring `REST2Result`; each polars frame is represented by
its `valor` column. -/
structure REST2Result where
  ghi : List (Option ℚ)
  ghi_tracker : List (Option ℚ)
  dni : List (Option ℚ)
  dhi : List (Option ℚ)
  ghi_cs : List (Option ℚ)
  ghi_tracker_cs : List (Option ℚ)
  dni_cs : List (Option ℚ)
  dhi_cs : List (Option ℚ)
deriving DecidableEq

/-- Embedding of `REST2Result.get`, including the branch layout of the
source (the `ghi_tracker` test is a fresh `if`, which is reachable exactly
when the three `elif` tests above it failed, so the nested conditional is
the same function). -/
def REST2Result.get (r : REST2Result) (radiation_type : String) :
    Except String (List (Option ℚ)) :=
  if radiation_type = "ghi" then Except.ok r.ghi
  else if radiation_type = "dni" then Except.ok r.dni
  else if radiation_type = "dhi" then Except.ok r.dhi
  else if radiation_type = "ghi_tracker" then Except.ok r.ghi_tracker
  else Except.error ("Unknown radiation type: " ++ radiation_type)

/-- Embedding of `REST2._choose_radiation_for_metric`. -/
def chooseRadiationForMetric (result : REST2Result)
    (radiation_type : String) : Except String (List (Option ℚ)) :=
  if radiation_type = "dni" then Except.ok result.dni
  else if radiation_type = "dni_cs" then Except.ok result.dni_cs
  else if radiation_type = "ghi" then Except.ok result.ghi
  else if radiation_type = "ghi_cs" then Except.ok result.ghi_cs
  else if radiation_type = "ghi_tracker" then Except.ok result.ghi_tracker
  else if radiation_type = "ghi_tracker_cs" then
    Except.ok result.ghi_tracker_cs
  else Except.error ("Unknown radiation type: " ++ radiation_type)

/-- Dictionary lookup on a parameter mapping, as `parameters["mu0"]` and
`parameters["g"]`; the junk value 0 stands in for the `KeyError` that a
missing key would raise, and every call site passes both keys. -/
def dictGet (d : List (String × ℚ)) (k : String) : ℚ :=
  ((d.find? (fun p => p.1 == k)).map Prod.snd).getD 0

/-- Embedding of `REST2.DEFAULT_PARAMETERS`, an insertion-ordered
mapping. -/
def DEFAULT_PARAMETERS : List (String × ℚ) := [("mu0", 0.0), ("g", 0.85)]

/-- Outcome tuple of `REST2._internal_convert_radiation` in source order:
cloud-sky streams first, then clear-sky streams. -/
structure Streams8 where
  ghi : List (Option ℚ)
  ghi_tracker : List (Option ℚ)
  dni : List (Option ℚ)
  dhi : List (Option ℚ)
  ghi_cs : List (Option ℚ)
  ghi_tracker_cs : List (Option ℚ)
  dni_cs : List (Option ℚ)
  dhi_cs : List (Option ℚ)
deriving DecidableEq

/-- Embedding of `REST2._internal_convert_radiation`: air masses, band
transmittances, cloud transmittance, band irradiance, then the two sky
compositions. -/
def internalConvertRadiation (ops : NpOps)
    (extraterrestrial_radiation zenith_angle angstrom_exponent pressure
      water_vapour ozone nitrogen_dioxide surface_albedo
      optical_depth_550nm cod : List ℚ)
    (parameters : List (String × ℚ)) : Except String Streams8 :=
  let air_masses := evaluateAirMasses ops zenith_angle angstrom_exponent
    pressure optical_depth_550nm
  let band1_radiation := band1Radiation ops ozone nitrogen_dioxide
    water_vapour angstrom_exponent zenith_angle air_masses
  let band2_radiation := band2Radiation ops water_vapour angstrom_exponent
    zenith_angle air_masses
  let cloud_transmittance := cloudTransmittance ops cod
    (dictGet parameters "mu0") (dictGet parameters "g")
  (band1Irradiance ops extraterrestrial_radiation zenith_angle
      surface_albedo band1_radiation cloud_transmittance).bind (fun p1 =>
    (band2Irradiance ops extraterrestrial_radiation zenith_angle
        surface_albedo band2_radiation cloud_transmittance).map (fun p2 =>
      let cs := clearSkyIrradiance ops zenith_angle p1.1 p2.1
      let cloud := cloudSkyIrradiance ops zenith_angle p1.2 p2.2
      { ghi := cloud.ghi
        ghi_tracker := cloud.ghi_tracker
        dni := cloud.dni
        dhi := cloud.dhi
        ghi_cs := cs.ghi
        ghi_tracker_cs := cs.ghi_tracker
        dni_cs := cs.dni
        dhi_cs := cs.dhi }))

/-- Mutable attributes of a `REST2` object that `convert_radiation`
touches: the stored input arrays set by `__init__` and the `result`
attribute (absent before the first call, hence optional). -/
structure REST2State where
  lat : ℚ
  lon : ℚ
  extraterrestrial_radiation : List ℚ
  zenith_angle : List ℚ
  angstrom_exponent : List ℚ
  pressure : List ℚ
  water_vapour : List ℚ
  ozone : List ℚ
  nitrogen_dioxide : List ℚ
  surface_albedo : List ℚ
  optical_depth_550nm : List ℚ
  cod : List ℚ
  result : Option REST2Result
deriving DecidableEq

/-- Embedding of `REST2.convert_radiation`: runs the internal conversion
on the stored attributes, assigns `self.result`, and returns it.  The
returned pair is the object state after the call together with the
returned value. -/
def convertRadiation (ops : NpOps) (st : REST2State)
    (parameters : List (String × ℚ)) :
    Except String (REST2State × REST2Result) :=
  (internalConvertRadiation ops st.extraterrestrial_radiation
      st.zenith_angle st.angstrom_exponent st.pressure st.water_vapour
      st.ozone st.nitrogen_dioxide st.surface_albedo
      st.optical_depth_550nm st.cod parameters).map (fun s =>
    let r : REST2Result :=
      { ghi := s.ghi, ghi_tracker := s.ghi_tracker, dni := s.dni
        dhi := s.dhi, ghi_cs := s.ghi_cs
        ghi_tracker_cs := s.ghi_tracker_cs, dni_cs := s.dni_cs
        dhi_cs := s.dhi_cs }
    ({ st with result := some r }, r))

/-- NaN-propagating subtraction on float values
(`predictions - targets`). -/
def subNan (a b : Option ℚ) : Option ℚ :=
  match a, b with
  | some x, some y => some (x - y)
  | _, _ => none

/-- NaN-propagating absolute value (`np.abs`). -/
def absNan (a : Option ℚ) : Option ℚ := a.map (fun x => abs x)

/-- NaN-propagating square (`errors ** 2`). -/
def sqNan (a : Option ℚ) : Option ℚ := a.map (fun x => x ^ 2)

/-- Meaning of `np.mean`: NaN on an empty array, NaN when any entry is
NaN, and the arithmetic mean otherwise. -/
def meanNan (l : List (Option ℚ)) : Option ℚ :=
  if l.length = 0 then none
  else if l.any (fun x => x.isNone) then none
  else some ((l.filterMap (fun x => x)).sum / l.length)

/-- Filter step `errors = errors[~np.isnan(errors)]`. -/
def dropNan (l : List (Option ℚ)) : List (Option ℚ) :=
  l.filter (fun x => x.isSome)

/-- Embedding of `metrics.me`: mean of the NaN-masked error array. -/
def me (predictions targets : List (Option ℚ)) (ignore_nans : Bool) :
    Option ℚ :=
  let errors := List.zipWith subNan predictions targets
  let errors := if ignore_nans then dropNan errors else errors
  meanNan errors

/-- Embedding of `metrics.mae`: mean of the NaN-masked absolute error
array. -/
def mae (predictions targets : List (Option ℚ)) (ignore_nans : Bool) :
    Option ℚ :=
  let errors := (List.zipWith subNan predictions targets).map absNan
  let errors := if ignore_nans then dropNan errors else errors
  meanNan errors

/-- Embedding of `metrics.rmse`: square root of the mean of the squared
NaN-masked error array. -/
def rmse (sqrtf : ℚ → ℚ) (predictions targets : List (Option ℚ))
    (ignore_nans : Bool) : Option ℚ :=
  let errors := List.zipWith subNan predictions targets
  let errors := if ignore_nans then dropNan errors else errors
  (meanNan (errors.map sqNan)).map sqrtf

/-- Keys of the default parameter mapping, in insertion order. -/
def parameterKeys : List String := DEFAULT_PARAMETERS.map Prod.fst

/-- Initial iterate of the calibration, read off the default mapping key
by key. -/
def parameterInitialValues : List ℚ :=
  parameterKeys.map (dictGet DEFAULT_PARAMETERS)

/-- Objective closure `f` of `REST2.train`: rebuild the parameter mapping
from the candidate vector, re-run the full conversion, select the chosen
stream, and return its RMSE against the measured series (with the default
NaN exclusion). -/
def trainObjective (ops : NpOps) (st : REST2State)
    (measured : List (Option ℚ)) (radiation_type : String)
    (params : List ℚ) : Except String (Option ℚ) :=
  let params_dict := List.zipWith (fun k v => (k, v)) parameterKeys params
  (convertRadiation ops st params_dict).bind (fun pr =>
    (chooseRadiationForMetric pr.2 radiation_type).map
      (fun chosen_radiation => rmse ops.sqrt measured chosen_radiation true))

/-- Embedding of `REST2.train`: minimize the objective from the default
initial iterate with the external BFGS routine and return the fitted
mapping, one entry per parameter key. -/
def train (ops : NpOps) (st : REST2State) (measured : List (Option ℚ))
    (radiation_type : String) : List (String × ℚ) :=
  let xs := ops.minimizeBFGS
    (trainObjective ops st measured radiation_type) parameterInitialValues
  (List.range parameterKeys.length).map
    (fun i => (parameterKeys.getD i "", xs.getD i 0))

/-- Embedding of `REST2.evaluate`: ME, MAE and RMSE of the chosen stream
against the measured series. -/
def evaluate (ops : NpOps) (result : REST2Result)
    (measured : List (Option ℚ)) (radiation_type : String) :
    Except String (List (String × Option ℚ)) :=
  (chooseRadiationForMetric result radiation_type).map
    (fun chosen_radiation =>
      [("ME", me measured chosen_radiation true),
       ("MAE", mae measured chosen_radiation true),
       ("RMSE", rmse ops.sqrt measured chosen_radiation true)])

/-- Meaning of the polars clip `pl.col("valor").clip(lower, upper)` on a
float column: NaN (and null) entries survive unchanged, every other entry
is clamped into the closed interval. -/
def clipColumn (lower upper : ℚ) (l : List (Option ℚ)) : List (Option ℚ) :=
  l.map (Option.map (fun x => if x < lower then lower
    else if x > upper then upper else x))

/-- Meaning of `np.nan_to_num` on the prepared COD column: NaN becomes 0,
finite entries pass through. -/
def nanToNum (l : List (Option ℚ)) : List ℚ := l.map (fun o => o.getD 0)

/-- Stored atmospheric inputs of a freshly constructed `REST2` object,
before the generated solar data. -/
structure StoredVariables where
  angstrom_exponent : List (Option ℚ)
  pressure : List (Option ℚ)
  water_vapour : List (Option ℚ)
  ozone : List (Option ℚ)
  nitrogen_dioxide : List (Option ℚ)
  surface_albedo : List (Option ℚ)
  optical_depth_550nm : List (Option ℚ)
  cod : List ℚ
deriving DecidableEq

/-- Lines 166-196 of `REST2.__init__`: the bound check on the Angstrom
exponent, the per-variable clipping, and the storage of the prepared
arrays (COD additionally passed through `np.nan_to_num`).  The value
columns are taken in time order, which the input contract makes the given
order, so the sort inside the prepare step is the identity; `od550` is
stored
without clipping, exactly as in the source. -/
def initVariables (cod albedo : List (Option ℚ))
    (angstrom_exponent : Option (List (Option ℚ)))
    (psurf h2o o3 no2 od550 : List (Option ℚ)) :
    Except String StoredVariables :=
  match angstrom_exponent with
  | none => Except.error "angstrom_exponent must not be None"
  | some alpha =>
      Except.ok
        { angstrom_exponent := clipColumn 0.0 2.5 alpha
          pressure := clipColumn 300.0 1100.0 psurf
          water_vapour := clipColumn 0.0 10.0 h2o
          ozone := clipColumn 0.0 10.0 o3
          nitrogen_dioxide := clipColumn 0.0 0.03 no2
          surface_albedo := clipColumn 0.0 1.0 albedo
          optical_depth_550nm := od550
          cod := nanToNum (clipColumn 0.0 160.0 cod) }

/-- NaN-propagating addition on float values. -/
def addNan (a b : Option ℚ) : Option ℚ :=
  match a, b with
  | some x, some y => some (x + y)
  | _, _ => none

/-- NaN-propagating multiplication on float values. -/
def mulNan (a b : Option ℚ) : Option ℚ :=
  match a, b with
  | some x, some y => some (x * y)
  | _, _ => none

/-- Pointwise description of the quality-control step. -/
def qcSpec (raw : ℚ) (out : Option ℚ) : Prop :=
  (raw < 0 → out = none ∧ out ≠ some 0) ∧ (0 ≤ raw → out = some raw)

theorem getD_zipWith {α β γ : Type} (f : α → β → γ) (a : List α)
    (b : List β) (i : ℕ) (da : α) (db : β) (dc : γ) (ha : i < a.length)
    (hb : i < b.length) :
    (List.zipWith f a b).getD i dc = f (a.getD i da) (b.getD i db) := by
  rw [List.getD_eq_getElem a da ha, List.getD_eq_getElem b db hb,
    List.getD_eq_getElem _ dc (by rw [List.length_zipWith]; omega),
    List.getElem_zipWith]

theorem getD_map {α β : Type} (f : α → β) (a : List α) (i : ℕ) (da : α)
    (db : β) (ha : i < a.length) :
    (a.map f).getD i db = f (a.getD i da) := by
  rw [List.getD_eq_getElem a da ha,
    List.getD_eq_getElem _ db (by rw [List.length_map]; omega),
    List.getElem_map]

theorem length_vAdd (a b : List ℚ) :
    (vAdd a b).length = min a.length b.length := by
  simp [vAdd]

theorem length_vMul (a b : List ℚ) :
    (vMul a b).length = min a.length b.length := by
  simp [vMul]

theorem length_maskNightZero (ops : NpOps) (a z : List ℚ) :
    (maskNightZero ops a z).length = min a.length z.length := by
  simp [maskNightZero]

theorem getD_vAdd (a b : List ℚ) (i : ℕ) (ha : i < a.length)
    (hb : i < b.length) :
    (vAdd a b).getD i 0 = a.getD i 0 + b.getD i 0 :=
  getD_zipWith _ a b i 0 0 0 ha hb

theorem getD_vMul (a b : List ℚ) (i : ℕ) (ha : i < a.length)
    (hb : i < b.length) :
    (vMul a b).getD i 0 = a.getD i 0 * b.getD i 0 :=
  getD_zipWith _ a b i 0 0 0 ha hb

theorem getD_maskNightZero (ops : NpOps) (a z : List ℚ) (i : ℕ)
    (ha : i < a.length) (hz : i < z.length) :
    (maskNightZero ops a z).getD i 0 =
      if rad2deg ops (z.getD i 0) > 90 then 0 else a.getD i 0 :=
  getD_zipWith _ a z i 0 0 0 ha hz

theorem getD_qualityControl (a : List ℚ) (i : ℕ) (ha : i < a.length) :
    (qualityControl a).getD i none =
      if a.getD i 0 < 0 then none else some (a.getD i 0) :=
  getD_map _ a i 0 none ha

/-- The cloud-sky aggregation routine is the same function as the
clear-sky one: the two source methods differ only in local variable
names. -/
theorem cloudSkyRaw_eq_clearSkyRaw : cloudSkyRaw = clearSkyRaw := rfl

/-- The two quality-controlled sky compositions are likewise the same
function. -/
theorem cloudSkyIrradiance_eq_clearSkyIrradiance :
    cloudSkyIrradiance = clearSkyIrradiance := rfl

/-- Lengths of the aggregated pre-quality-control streams, under the
aligned-length input contract. -/
theorem clearSkyRaw_lengths (ops : NpOps) (z : List ℚ)
    (b1 b2 : BandIrradianceResults)
    (h1 : b1.direct_beam.length = z.length)
    (h2 : b2.direct_beam.length = z.length)
    (h3 : b1.diffuse_on_absorbing_ground.length = z.length)
    (h4 : b2.diffuse_on_absorbing_ground.length = z.length)
    (h5 : b1.multiple_reflections.length = z.length)
    (h6 : b2.multiple_reflections.length = z.length) :
    (clearSkyRaw ops z b1 b2).ebh.length = z.length ∧
    (clearSkyRaw ops z b1 b2).dni.length = z.length ∧
    (clearSkyRaw ops z b1 b2).dhi.length = z.length ∧
    (clearSkyRaw ops z b1 b2).ghi.length = z.length ∧
    (clearSkyRaw ops z b1 b2).ghi_tracker.length = z.length := by
  simp [clearSkyRaw, length_maskNightZero, length_vAdd, length_vMul,
    h1, h2, h3, h4, h5, h6]

/-- Pointwise value of the pre-quality-control direct normal
irradiance. -/
theorem clearSkyRaw_dni_getD (ops : NpOps) (z : List ℚ)
    (b1 b2 : BandIrradianceResults) (i : ℕ)
    (h1 : b1.direct_beam.length = z.length)
    (h2 : b2.direct_beam.length = z.length) (hi : i < z.length) :
    (clearSkyRaw ops z b1 b2).dni.getD i 0 =
      if rad2deg ops (z.getD i 0) > 90 then 0
      else b1.direct_beam.getD i 0 + b2.direct_beam.getD i 0 := by
  show (maskNightZero ops (vAdd b1.direct_beam b2.direct_beam) z).getD i 0 = _
  rw [getD_maskNightZero _ _ _ _ (by rw [length_vAdd]; omega) hi,
    getD_vAdd _ _ _ (by omega) (by omega)]

/-- Pointwise value of the pre-quality-control direct horizontal
irradiance. -/
theorem clearSkyRaw_ebh_getD (ops : NpOps) (z : List ℚ)
    (b1 b2 : BandIrradianceResults) (i : ℕ)
    (h1 : b1.direct_beam.length = z.length)
    (h2 : b2.direct_beam.length = z.length) (hi : i < z.length) :
    (clearSkyRaw ops z b1 b2).ebh.getD i 0 =
      if rad2deg ops (z.getD i 0) > 90 then 0
      else (b1.direct_beam.getD i 0 + b2.direct_beam.getD i 0) *
        ops.cos (z.getD i 0) := by
  show (maskNightZero ops
    (vMul (vAdd b1.direct_beam b2.direct_beam) (z.map ops.cos)) z).getD i 0 = _
  rw [getD_maskNightZero _ _ _ _
      (by rw [length_vMul, length_vAdd, List.length_map]; omega) hi,
    getD_vMul _ _ _ (by rw [length_vAdd]; omega)
      (by rw [List.length_map]; omega),
    getD_vAdd _ _ _ (by omega) (by omega), getD_map _ _ _ 0 0 hi]

/-- Pointwise value of the pre-quality-control diffuse horizontal
irradiance. -/
theorem clearSkyRaw_dhi_getD (ops : NpOps) (z : List ℚ)
    (b1 b2 : BandIrradianceResults) (i : ℕ)
    (h3 : b1.diffuse_on_absorbing_ground.length = z.length)
    (h4 : b2.diffuse_on_absorbing_ground.length = z.length)
    (h5 : b1.multiple_reflections.length = z.length)
    (h6 : b2.multiple_reflections.length = z.length) (hi : i < z.length) :
    (clearSkyRaw ops z b1 b2).dhi.getD i 0 =
      if rad2deg ops (z.getD i 0) > 90 then 0
      else b1.diffuse_on_absorbing_ground.getD i 0 +
        b1.multiple_reflections.getD i 0 +
        b2.diffuse_on_absorbing_ground.getD i 0 +
        b2.multiple_reflections.getD i 0 := by
  show (maskNightZero ops (vAdd (vAdd (vAdd
    b1.diffuse_on_absorbing_ground b1.multiple_reflections)
    b2.diffuse_on_absorbing_ground) b2.multiple_reflections) z).getD i 0 = _
  rw [getD_maskNightZero _ _ _ _
      (by rw [length_vAdd, length_vAdd, length_vAdd]; omega) hi,
    getD_vAdd _ _ _ (by rw [length_vAdd, length_vAdd]; omega) (by omega),
    getD_vAdd _ _ _ (by rw [length_vAdd]; omega) (by omega),
    getD_vAdd _ _ _ (by omega) (by omega)]

/-- Pointwise value of the pre-quality-control global horizontal
irradiance: sum of the (already night-forced) direct horizontal and
diffuse streams. -/
theorem clearSkyRaw_ghi_getD (ops : NpOps) (z : List ℚ)
    (b1 b2 : BandIrradianceResults) (i : ℕ)
    (h1 : b1.direct_beam.length = z.length)
    (h2 : b2.direct_beam.length = z.length)
    (h3 : b1.diffuse_on_absorbing_ground.length = z.length)
    (h4 : b2.diffuse_on_absorbing_ground.length = z.length)
    (h5 : b1.multiple_reflections.length = z.length)
    (h6 : b2.multiple_reflections.length = z.length) (hi : i < z.length) :
    (clearSkyRaw ops z b1 b2).ghi.getD i 0 =
      (clearSkyRaw ops z b1 b2).ebh.getD i 0 +
      (clearSkyRaw ops z b1 b2).dhi.getD i 0 := by
  obtain ⟨l1, l2, l3, _, _⟩ := clearSkyRaw_lengths ops z b1 b2 h1 h2 h3 h4 h5 h6
  show (vAdd (clearSkyRaw ops z b1 b2).ebh
    (clearSkyRaw ops z b1 b2).dhi).getD i 0 = _
  rw [getD_vAdd _ _ _ (by omega) (by omega)]

/-- Pointwise value of the pre-quality-control tracker irradiance: sum of
the (already night-forced) DNI and diffuse streams. -/
theorem clearSkyRaw_tracker_getD (ops : NpOps) (z : List ℚ)
    (b1 b2 : BandIrradianceResults) (i : ℕ)
    (h1 : b1.direct_beam.length = z.length)
    (h2 : b2.direct_beam.length = z.length)
    (h3 : b1.diffuse_on_absorbing_ground.length = z.length)
    (h4 : b2.diffuse_on_absorbing_ground.length = z.length)
    (h5 : b1.multiple_reflections.length = z.length)
    (h6 : b2.multiple_reflections.length = z.length) (hi : i < z.length) :
    (clearSkyRaw ops z b1 b2).ghi_tracker.getD i 0 =
      (clearSkyRaw ops z b1 b2).dni.getD i 0 +
      (clearSkyRaw ops z b1 b2).dhi.getD i 0 := by
  obtain ⟨l1, l2, l3, _, _⟩ := clearSkyRaw_lengths ops z b1 b2 h1 h2 h3 h4 h5 h6
  show (vAdd (clearSkyRaw ops z b1 b2).dni
    (clearSkyRaw ops z b1 b2).dhi).getD i 0 = _
  rw [getD_vAdd _ _ _ (by omega) (by omega)]

/-- Concrete interpretation of the external numeric routines, used to
instantiate universally quantified theorems on explicit inputs. -/
def witOps : NpOps :=
  { pi := 3.14
    cos := fun _ => 1
    exp := fun x => 1 + x
    log := fun _ => 0
    rpow := fun _ _ => 1
    cpow := fun _ _ => (1, 0)
    cabs := fun zc => zc.1
    sqrt := fun _ => 0
    minimizeBFGS := fun _ x0 => x0 }

/-- Concrete band-1 irradiance fixture. -/
def witB1 : BandIrradianceResults :=
  { direct_beam := [5], diffuse_on_absorbing_ground := [0]
    multiple_reflections := [0] }

/-- Concrete band-2 irradiance fixture. -/
def witB2 : BandIrradianceResults :=
  { direct_beam := [0], diffuse_on_absorbing_ground := [-1]
    multiple_reflections := [0] }

/-- Concrete one-timestep night fixture (zenith 4 rad reads as about 229
degrees under `witOps.pi`). -/
def witB3 : BandIrradianceResults :=
  { direct_beam := [7], diffuse_on_absorbing_ground := [8]
    multiple_reflections := [9] }

/-- C1: for every timestep whose zenith angle exceeds 90 degrees, DNI,
direct-horizontal irradiance, and DHI are forced to exactly 0 in the
aggregation stage, before GHI and tracker GHI are formed (so those two are
0 there as well) and before the negative-value quality control; the same
holds in the clear-sky and in the cloud-sky composition. -/
theorem night_zenith_forces_components_zero (ops : NpOps) (z : List ℚ)
    (b1 b2 c1 c2 : BandIrradianceResults) (i : ℕ)
    (h1 : b1.direct_beam.length = z.length)
    (h2 : b2.direct_beam.length = z.length)
    (h3 : b1.diffuse_on_absorbing_ground.length = z.length)
    (h4 : b2.diffuse_on_absorbing_ground.length = z.length)
    (h5 : b1.multiple_reflections.length = z.length)
    (h6 : b2.multiple_reflections.length = z.length)
    (g1 : c1.direct_beam.length = z.length)
    (g2 : c2.direct_beam.length = z.length)
    (g3 : c1.diffuse_on_absorbing_ground.length = z.length)
    (g4 : c2.diffuse_on_absorbing_ground.length = z.length)
    (g5 : c1.multiple_reflections.length = z.length)
    (g6 : c2.multiple_reflections.length = z.length)
    (hi : i < z.length) (hnight : rad2deg ops (z.getD i 0) > 90) :
    (clearSkyRaw ops z b1 b2).dni.getD i 0 = 0 ∧
    (clearSkyRaw ops z b1 b2).ebh.getD i 0 = 0 ∧
    (clearSkyRaw ops z b1 b2).dhi.getD i 0 = 0 ∧
    (clearSkyRaw ops z b1 b2).ghi.getD i 0 = 0 ∧
    (clearSkyRaw ops z b1 b2).ghi_tracker.getD i 0 = 0 ∧
    (cloudSkyRaw ops z c1 c2).dni.getD i 0 = 0 ∧
    (cloudSkyRaw ops z c1 c2).ebh.getD i 0 = 0 ∧
    (cloudSkyRaw ops z c1 c2).dhi.getD i 0 = 0 ∧
    (cloudSkyRaw ops z c1 c2).ghi.getD i 0 = 0 ∧
    (cloudSkyRaw ops z c1 c2).ghi_tracker.getD i 0 = 0 := by
  rw [cloudSkyRaw_eq_clearSkyRaw]
  have bdni := clearSkyRaw_dni_getD ops z b1 b2 i h1 h2 hi
  have bebh := clearSkyRaw_ebh_getD ops z b1 b2 i h1 h2 hi
  have bdhi := clearSkyRaw_dhi_getD ops z b1 b2 i h3 h4 h5 h6 hi
  have bghi := clearSkyRaw_ghi_getD ops z b1 b2 i h1 h2 h3 h4 h5 h6 hi
  have btr := clearSkyRaw_tracker_getD ops z b1 b2 i h1 h2 h3 h4 h5 h6 hi
  have cdni := clearSkyRaw_dni_getD ops z c1 c2 i g1 g2 hi
  have cebh := clearSkyRaw_ebh_getD ops z c1 c2 i g1 g2 hi
  have cdhi := clearSkyRaw_dhi_getD ops z c1 c2 i g3 g4 g5 g6 hi
  have cghi := clearSkyRaw_ghi_getD ops z c1 c2 i g1 g2 g3 g4 g5 g6 hi
  have ctr := clearSkyRaw_tracker_getD ops z c1 c2 i g1 g2 g3 g4 g5 g6 hi
  rw [if_pos hnight] at bdni bebh bdhi cdni cebh cdhi
  refine ⟨bdni, bebh, bdhi, ?_, ?_, cdni, cebh, cdhi, ?_, ?_⟩
  · rw [bghi, bebh, bdhi]; ring
  · rw [btr, bdni, bdhi]; ring
  · rw [cghi, cebh, cdhi]; ring
  · rw [ctr, cdni, cdhi]; ring

/-- Concrete instance of the night-forcing theorem: one timestep at
zenith 4 rad (beyond 90 degrees), with nonzero band inputs in both
streams, has zero DNI and zero cloud-sky GHI before quality control. -/
theorem night_zenith_forces_components_zero_witness :
    (clearSkyRaw witOps [4] witB1 witB2).dni.getD 0 0 = 0 ∧
    (cloudSkyRaw witOps [4] witB3 witB3).ghi.getD 0 0 = 0 := by
  obtain ⟨hdni, _, _, _, _, _, _, _, hghi, _⟩ :=
    night_zenith_forces_components_zero witOps [4] witB1 witB2 witB3 witB3 0
      rfl rfl rfl rfl rfl rfl rfl rfl rfl rfl rfl rfl (by decide)
      (by norm_num [rad2deg, witOps])
  exact ⟨hdni, hghi⟩

/-- C2, counterexample: in the streams returned after quality control the
energy identity `GHI = DNI * cos(zenith) + DHI` fails at a daytime
timestep where the aggregated DHI is negative: DHI becomes the missing
sentinel while GHI stays finite, so the right-hand side is missing and the
left-hand side is not.  Inputs: zenith 0, band direct beams summing to 5,
band diffuse terms summing to -1. -/
theorem energy_identity_after_qc_cex :
    ¬ ((clearSkyIrradiance witOps [0] witB1 witB2).ghi.getD 0 none =
      addNan
        (mulNan ((clearSkyIrradiance witOps [0] witB1 witB2).dni.getD 0 none)
          (some (witOps.cos (([0] : List ℚ).getD 0 0))))
        ((clearSkyIrradiance witOps [0] witB1 witB2).dhi.getD 0 none)) := by
  have h : (clearSkyIrradiance witOps [0] witB1 witB2).ghi.getD 0 none =
      some 4 ∧
      (clearSkyIrradiance witOps [0] witB1 witB2).dni.getD 0 none = some 5 ∧
      (clearSkyIrradiance witOps [0] witB1 witB2).dhi.getD 0 none = none := by
    norm_num [clearSkyIrradiance, clearSkyRaw, qualityControl,
      maskNightZero, vAdd, vMul, rad2deg, witOps, witB1, witB2]
  rw [h.1, h.2.1, h.2.2]
  simp [addNan, mulNan]

/-- C2, amended: the energy identities `GHI = DNI * cos(zenith) + DHI` and
`tracker = DNI + DHI` hold exactly, at every timestep and in both the
clear-sky and the cloud-sky composition, for the aggregated streams before
the negative-value quality control (after it they can fail, exactly when a
negative component was replaced by the missing sentinel). -/
theorem energy_identity_before_qc (ops : NpOps) (z : List ℚ)
    (b1 b2 c1 c2 : BandIrradianceResults) (i : ℕ)
    (h1 : b1.direct_beam.length = z.length)
    (h2 : b2.direct_beam.length = z.length)
    (h3 : b1.diffuse_on_absorbing_ground.length = z.length)
    (h4 : b2.diffuse_on_absorbing_ground.length = z.length)
    (h5 : b1.multiple_reflections.length = z.length)
    (h6 : b2.multiple_reflections.length = z.length)
    (g1 : c1.direct_beam.length = z.length)
    (g2 : c2.direct_beam.length = z.length)
    (g3 : c1.diffuse_on_absorbing_ground.length = z.length)
    (g4 : c2.diffuse_on_absorbing_ground.length = z.length)
    (g5 : c1.multiple_reflections.length = z.length)
    (g6 : c2.multiple_reflections.length = z.length)
    (hi : i < z.length) :
    (clearSkyRaw ops z b1 b2).ghi.getD i 0 =
      (clearSkyRaw ops z b1 b2).dni.getD i 0 * ops.cos (z.getD i 0) +
      (clearSkyRaw ops z b1 b2).dhi.getD i 0 ∧
    (clearSkyRaw ops z b1 b2).ghi_tracker.getD i 0 =
      (clearSkyRaw ops z b1 b2).dni.getD i 0 +
      (clearSkyRaw ops z b1 b2).dhi.getD i 0 ∧
    (cloudSkyRaw ops z c1 c2).ghi.getD i 0 =
      (cloudSkyRaw ops z c1 c2).dni.getD i 0 * ops.cos (z.getD i 0) +
      (cloudSkyRaw ops z c1 c2).dhi.getD i 0 ∧
    (cloudSkyRaw ops z c1 c2).ghi_tracker.getD i 0 =
      (cloudSkyRaw ops z c1 c2).dni.getD i 0 +
      (cloudSkyRaw ops z c1 c2).dhi.getD i 0 := by
  rw [cloudSkyRaw_eq_clearSkyRaw]
  have key : ∀ d1 d2 : BandIrradianceResults,
      d1.direct_beam.length = z.length → d2.direct_beam.length = z.length →
      d1.diffuse_on_absorbing_ground.length = z.length →
      d2.diffuse_on_absorbing_ground.length = z.length →
      d1.multiple_reflections.length = z.length →
      d2.multiple_reflections.length = z.length →
      (clearSkyRaw ops z d1 d2).ghi.getD i 0 =
        (clearSkyRaw ops z d1 d2).dni.getD i 0 * ops.cos (z.getD i 0) +
        (clearSkyRaw ops z d1 d2).dhi.getD i 0 ∧
      (clearSkyRaw ops z d1 d2).ghi_tracker.getD i 0 =
        (clearSkyRaw ops z d1 d2).dni.getD i 0 +
        (clearSkyRaw ops z d1 d2).dhi.getD i 0 := by
    intro d1 d2 k1 k2 k3 k4 k5 k6
    constructor
    · rw [clearSkyRaw_ghi_getD ops z d1 d2 i k1 k2 k3 k4 k5 k6 hi,
        clearSkyRaw_ebh_getD ops z d1 d2 i k1 k2 hi,
        clearSkyRaw_dni_getD ops z d1 d2 i k1 k2 hi]
      split_ifs with hn
      · ring
      · ring
    · exact clearSkyRaw_tracker_getD ops z d1 d2 i k1 k2 k3 k4 k5 k6 hi
  obtain ⟨p1, p2⟩ := key b1 b2 h1 h2 h3 h4 h5 h6
  obtain ⟨q1, q2⟩ := key c1 c2 g1 g2 g3 g4 g5 g6
  exact ⟨p1, p2, q1, q2⟩

/-- Concrete instance of the pre-quality-control energy identity at a
daytime timestep with nonzero band inputs. -/
theorem energy_identity_before_qc_witness :
    (clearSkyRaw witOps [0] witB1 witB2).ghi.getD 0 0 =
      (clearSkyRaw witOps [0] witB1 witB2).dni.getD 0 0 *
        witOps.cos (([0] : List ℚ).getD 0 0) +
      (clearSkyRaw witOps [0] witB1 witB2).dhi.getD 0 0 :=
  (energy_identity_before_qc witOps [0] witB1 witB2 witB3 witB3 0
    rfl rfl rfl rfl rfl rfl rfl rfl rfl rfl rfl rfl (by decide)).1

theorem qcSpec_of_qualityControl (a : List ℚ) (i : ℕ) (ha : i < a.length) :
    qcSpec (a.getD i 0) ((qualityControl a).getD i none) := by
  rw [getD_qualityControl a i ha]
  constructor
  · intro h
    rw [if_pos h]
    exact ⟨rfl, by simp⟩
  · intro h
    rw [if_neg (not_lt.mpr h)]

theorem clearSkyIrradiance_proj (ops : NpOps) (z : List ℚ)
    (b1 b2 : BandIrradianceResults) :
    (clearSkyIrradiance ops z b1 b2).ghi =
      qualityControl (clearSkyRaw ops z b1 b2).ghi := rfl

theorem clearSkyIrradiance_proj_tracker (ops : NpOps) (z : List ℚ)
    (b1 b2 : BandIrradianceResults) :
    (clearSkyIrradiance ops z b1 b2).ghi_tracker =
      qualityControl (clearSkyRaw ops z b1 b2).ghi_tracker := rfl

theorem clearSkyIrradiance_proj_dni (ops : NpOps) (z : List ℚ)
    (b1 b2 : BandIrradianceResults) :
    (clearSkyIrradiance ops z b1 b2).dni =
      qualityControl (clearSkyRaw ops z b1 b2).dni := rfl

theorem clearSkyIrradiance_proj_dhi (ops : NpOps) (z : List ℚ)
    (b1 b2 : BandIrradianceResults) :
    (clearSkyIrradiance ops z b1 b2).dhi =
      qualityControl (clearSkyRaw ops z b1 b2).dhi := rfl

/-- C3: after aggregation and the night zero-forcing, the quality control
turns every strictly negative GHI, DNI, DHI, or tracker value into the
missing sentinel (never into 0) and passes every non-negative value
through unchanged, in the clear-sky and in the cloud-sky composition
alike. -/
theorem quality_control_replaces_negatives (ops : NpOps) (z : List ℚ)
    (b1 b2 c1 c2 : BandIrradianceResults) (i : ℕ)
    (h1 : b1.direct_beam.length = z.length)
    (h2 : b2.direct_beam.length = z.length)
    (h3 : b1.diffuse_on_absorbing_ground.length = z.length)
    (h4 : b2.diffuse_on_absorbing_ground.length = z.length)
    (h5 : b1.multiple_reflections.length = z.length)
    (h6 : b2.multiple_reflections.length = z.length)
    (g1 : c1.direct_beam.length = z.length)
    (g2 : c2.direct_beam.length = z.length)
    (g3 : c1.diffuse_on_absorbing_ground.length = z.length)
    (g4 : c2.diffuse_on_absorbing_ground.length = z.length)
    (g5 : c1.multiple_reflections.length = z.length)
    (g6 : c2.multiple_reflections.length = z.length)
    (hi : i < z.length) :
    qcSpec ((clearSkyRaw ops z b1 b2).ghi.getD i 0)
      ((clearSkyIrradiance ops z b1 b2).ghi.getD i none) ∧
    qcSpec ((clearSkyRaw ops z b1 b2).ghi_tracker.getD i 0)
      ((clearSkyIrradiance ops z b1 b2).ghi_tracker.getD i none) ∧
    qcSpec ((clearSkyRaw ops z b1 b2).dni.getD i 0)
      ((clearSkyIrradiance ops z b1 b2).dni.getD i none) ∧
    qcSpec ((clearSkyRaw ops z b1 b2).dhi.getD i 0)
      ((clearSkyIrradiance ops z b1 b2).dhi.getD i none) ∧
    qcSpec ((cloudSkyRaw ops z c1 c2).ghi.getD i 0)
      ((cloudSkyIrradiance ops z c1 c2).ghi.getD i none) ∧
    qcSpec ((cloudSkyRaw ops z c1 c2).ghi_tracker.getD i 0)
      ((cloudSkyIrradiance ops z c1 c2).ghi_tracker.getD i none) ∧
    qcSpec ((cloudSkyRaw ops z c1 c2).dni.getD i 0)
      ((cloudSkyIrradiance ops z c1 c2).dni.getD i none) ∧
    qcSpec ((cloudSkyRaw ops z c1 c2).dhi.getD i 0)
      ((cloudSkyIrradiance ops z c1 c2).dhi.getD i none) := by
  rw [cloudSkyRaw_eq_clearSkyRaw, cloudSkyIrradiance_eq_clearSkyIrradiance,
    clearSkyIrradiance_proj ops z b1 b2, clearSkyIrradiance_proj ops z c1 c2,
    clearSkyIrradiance_proj_tracker ops z b1 b2,
    clearSkyIrradiance_proj_tracker ops z c1 c2,
    clearSkyIrradiance_proj_dni ops z b1 b2,
    clearSkyIrradiance_proj_dni ops z c1 c2,
    clearSkyIrradiance_proj_dhi ops z b1 b2,
    clearSkyIrradiance_proj_dhi ops z c1 c2]
  obtain ⟨e1, e2, e3, e4, e5⟩ := clearSkyRaw_lengths ops z b1 b2 h1 h2 h3 h4 h5 h6
  obtain ⟨f1, f2, f3, f4, f5⟩ := clearSkyRaw_lengths ops z c1 c2 g1 g2 g3 g4 g5 g6
  exact ⟨qcSpec_of_qualityControl (clearSkyRaw ops z b1 b2).ghi i
      (by rw [e4]; exact hi),
    qcSpec_of_qualityControl (clearSkyRaw ops z b1 b2).ghi_tracker i
      (by rw [e5]; exact hi),
    qcSpec_of_qualityControl (clearSkyRaw ops z b1 b2).dni i
      (by rw [e2]; exact hi),
    qcSpec_of_qualityControl (clearSkyRaw ops z b1 b2).dhi i
      (by rw [e3]; exact hi),
    qcSpec_of_qualityControl (clearSkyRaw ops z c1 c2).ghi i
      (by rw [f4]; exact hi),
    qcSpec_of_qualityControl (clearSkyRaw ops z c1 c2).ghi_tracker i
      (by rw [f5]; exact hi),
    qcSpec_of_qualityControl (clearSkyRaw ops z c1 c2).dni i
      (by rw [f2]; exact hi),
    qcSpec_of_qualityControl (clearSkyRaw ops z c1 c2).dhi i
      (by rw [f3]; exact hi)⟩

/-- Concrete instance of the quality-control theorem: the fixture whose
aggregated clear-sky DHI is -1 (replaced by the sentinel) and whose GHI is
4 (passed through). -/
theorem quality_control_replaces_negatives_witness :
    qcSpec ((clearSkyRaw witOps [0] witB1 witB2).dhi.getD 0 0)
      ((clearSkyIrradiance witOps [0] witB1 witB2).dhi.getD 0 none) ∧
    qcSpec ((clearSkyRaw witOps [0] witB1 witB2).ghi.getD 0 0)
      ((clearSkyIrradiance witOps [0] witB1 witB2).ghi.getD 0 none) := by
  obtain ⟨p1, _, _, p4, _⟩ :=
    quality_control_replaces_negatives witOps [0] witB1 witB2 witB3 witB3 0
      rfl rfl rfl rfl rfl rfl rfl rfl rfl rfl rfl rfl (by decide)
  exact ⟨p4, p1⟩

/-- C4: the cloud transmittance model returns exactly
`exp(-COD / (0.5 + mu0))` for the direct component and
`1 / (1 + (1 - g) * COD) - exp(-COD / (0.5 + mu0))` for the diffuse
component — the equalities with the raw formulas show that no clipping is
applied to either output, so the diffuse value may be negative — and at
`COD = 0` the direct transmittance is 1 and the diffuse transmittance is 0
for every `mu0` and `g` (given the defining property `exp 0 = 1` of the
external exponential). -/
theorem cloud_transmittance_formula (ops : NpOps) (cod : List ℚ)
    (mu0 g : ℚ) (i : ℕ) (hi : i < cod.length) :
    (cloudTransmittance ops cod mu0 g).direct.getD i 0 =
      ops.exp (-(cod.getD i 0) / (0.5 + mu0)) ∧
    (cloudTransmittance ops cod mu0 g).diffuse.getD i 0 =
      1 / (1 + (1 - g) * cod.getD i 0) -
        ops.exp (-(cod.getD i 0) / (0.5 + mu0)) ∧
    (ops.exp 0 = 1 → cod.getD i 0 = 0 →
      (cloudTransmittance ops cod mu0 g).direct.getD i 0 = 1 ∧
      (cloudTransmittance ops cod mu0 g).diffuse.getD i 0 = 0) := by
  have hd : (cloudTransmittance ops cod mu0 g).direct.getD i 0 =
      ops.exp (-1 * cod.getD i 0 / (0.5 + mu0)) :=
    getD_map _ cod i 0 0 hi
  have hf : (cloudTransmittance ops cod mu0 g).diffuse.getD i 0 =
      1 / (1 + (1 - g) * cod.getD i 0) -
        ops.exp (-1 * cod.getD i 0 / (0.5 + mu0)) :=
    getD_map _ cod i 0 0 hi
  have harg : -1 * cod.getD i 0 / (0.5 + mu0) =
      -(cod.getD i 0) / (0.5 + mu0) := by ring
  rw [harg] at hd hf
  refine ⟨hd, hf, fun hexp hc => ?_⟩
  rw [hc] at hd hf
  have e1 : -(0 : ℚ) / (0.5 + mu0) = 0 := by norm_num
  have e2 : 1 / (1 + (1 - g) * (0 : ℚ)) = 1 := by norm_num
  rw [e1, hexp] at hd hf
  rw [e2] at hf
  exact ⟨hd, by rw [hf]; ring⟩

/-- Concrete instance of the cloud-transmittance theorem at `COD = 0`,
`mu0 = 0`, `g = 0.85`: direct transmittance 1, diffuse transmittance 0. -/
theorem cloud_transmittance_formula_witness :
    (cloudTransmittance witOps [0] 0 0.85).direct.getD 0 0 = 1 ∧
    (cloudTransmittance witOps [0] 0 0.85).diffuse.getD 0 0 = 0 :=
  (cloud_transmittance_formula witOps [0] 0 0.85 0 (by decide)).2.2
    (by norm_num [witOps]) rfl

/-- C5: training starts from exactly `mu0 = 0, g = 0.85`, hands the BFGS
minimizer an objective that rebuilds the parameter mapping from the
candidate vector, re-runs the full composition and returns the RMSE of the
chosen stream against the measured series with the NaN-excluding flag set,
and returns a mapping whose keys are exactly `mu0` and `g` (bound to the
minimizer iterate). -/
theorem train_structure (ops : NpOps) (st : REST2State)
    (measured : List (Option ℚ)) (radiation_type : String) :
    parameterInitialValues = [0, 0.85] ∧
    (train ops st measured radiation_type).map Prod.fst = ["mu0", "g"] ∧
    train ops st measured radiation_type =
      [("mu0", (ops.minimizeBFGS
          (trainObjective ops st measured radiation_type)
          [0, 0.85]).getD 0 0),
       ("g", (ops.minimizeBFGS
          (trainObjective ops st measured radiation_type)
          [0, 0.85]).getD 1 0)] ∧
    ∀ p gv : ℚ, trainObjective ops st measured radiation_type [p, gv] =
      (convertRadiation ops st [("mu0", p), ("g", gv)]).bind (fun pr =>
        (chooseRadiationForMetric pr.2 radiation_type).map
          (fun chosen_radiation =>
            rmse ops.sqrt measured chosen_radiation true)) := by
  refine ⟨?_, rfl, ?_, fun _ _ => rfl⟩
  · simp [parameterInitialValues, parameterKeys, DEFAULT_PARAMETERS,
      dictGet, List.find?]
    norm_num
  · simp [train, parameterKeys, parameterInitialValues,
      DEFAULT_PARAMETERS, dictGet, List.find?, List.range_succ]
    norm_num

/-- Fixture result with pairwise distinct streams, to exercise the
selection functions. -/
def cexResult : REST2Result :=
  { ghi := [some 1], ghi_tracker := [some 2], dni := [some 3]
    dhi := [some 4], ghi_cs := [some 5], ghi_tracker_cs := [some 6]
    dni_cs := [some 7], dhi_cs := [some 8] }

/-- C6, counterexample: two selectors inside the claimed accepted set fail
with the invalid-argument error instead of returning the corresponding
series — `dhi` is rejected by the metric-stream selection used by train
and evaluate, and the clear-sky variant `ghi_cs` is rejected by
`REST2Result.get`. -/
theorem radiation_selector_cex :
    ¬ (chooseRadiationForMetric cexResult "dhi" =
        Except.ok cexResult.dhi) ∧
    ¬ (REST2Result.get cexResult "ghi_cs" = Except.ok cexResult.ghi_cs) :=
  ⟨fun h => Except.noConfusion h, fun h => Except.noConfusion h⟩

/-- C6, amended: `REST2Result.get` returns the corresponding series for
exactly the four base selectors `ghi`, `dni`, `dhi`, `ghi_tracker` and
raises the invalid-argument error for every other string (including every
clear-sky variant), while the selection used by train and evaluate returns
the corresponding series for exactly `dni`, `dni_cs`, `ghi`, `ghi_cs`,
`ghi_tracker`, `ghi_tracker_cs` and raises the invalid-argument error for
every other string (including `dhi` and `dhi_cs`). -/
theorem radiation_selector_exact (r : REST2Result) (s t : String)
    (hs : ¬ (s = "ghi" ∨ s = "dni" ∨ s = "dhi" ∨ s = "ghi_tracker"))
    (ht : ¬ (t = "dni" ∨ t = "dni_cs" ∨ t = "ghi" ∨ t = "ghi_cs" ∨
      t = "ghi_tracker" ∨ t = "ghi_tracker_cs")) :
    r.get "ghi" = Except.ok r.ghi ∧
    r.get "dni" = Except.ok r.dni ∧
    r.get "dhi" = Except.ok r.dhi ∧
    r.get "ghi_tracker" = Except.ok r.ghi_tracker ∧
    r.get s = Except.error ("Unknown radiation type: " ++ s) ∧
    chooseRadiationForMetric r "dni" = Except.ok r.dni ∧
    chooseRadiationForMetric r "dni_cs" = Except.ok r.dni_cs ∧
    chooseRadiationForMetric r "ghi" = Except.ok r.ghi ∧
    chooseRadiationForMetric r "ghi_cs" = Except.ok r.ghi_cs ∧
    chooseRadiationForMetric r "ghi_tracker" =
      Except.ok r.ghi_tracker ∧
    chooseRadiationForMetric r "ghi_tracker_cs" =
      Except.ok r.ghi_tracker_cs ∧
    chooseRadiationForMetric r t =
      Except.error ("Unknown radiation type: " ++ t) := by
  push_neg at hs ht
  obtain ⟨s1, s2, s3, s4⟩ := hs
  obtain ⟨t1, t2, t3, t4, t5, t6⟩ := ht
  refine ⟨rfl, rfl, rfl, rfl, ?_, rfl, rfl, rfl, rfl, rfl, rfl, ?_⟩
  · simp [REST2Result.get, s1, s2, s3, s4]
  · simp [chooseRadiationForMetric, t1, t2, t3, t4, t5, t6]

/-- Concrete instance of the amended selector theorem at the two selectors
of the counterexample. -/
theorem radiation_selector_exact_witness :
    REST2Result.get cexResult "ghi_cs" =
      Except.error ("Unknown radiation type: " ++ "ghi_cs") ∧
    chooseRadiationForMetric cexResult "dhi" =
      Except.error ("Unknown radiation type: " ++ "dhi") := by
  obtain ⟨_, _, _, _, e5, _, _, _, _, _, _, e12⟩ :=
    radiation_selector_exact cexResult "ghi_cs" "dhi" (by decide) (by decide)
  exact ⟨e5, e12⟩

/-- C7: the Angstrom turbidity produced by the air-mass stage is
`od550 / 0.55^(-alpha)` clamped to the closed interval [0, 1.1]: the
output always lies in [0, 1.1], raw values above 1.1 map exactly to 1.1,
raw values below 0 map exactly to 0, and raw values already inside the
interval pass through unchanged. -/
theorem angstrom_turbidity_clamped (ops : NpOps)
    (zenith_angle angstrom_exponent pressure optical_depth_550nm : List ℚ)
    (i : ℕ) (ho : i < optical_depth_550nm.length)
    (ha : i < angstrom_exponent.length) :
    0 ≤ (evaluateAirMasses ops zenith_angle angstrom_exponent pressure
      optical_depth_550nm).angstrom_turbidity.getD i 0 ∧
    (evaluateAirMasses ops zenith_angle angstrom_exponent pressure
      optical_depth_550nm).angstrom_turbidity.getD i 0 ≤ 1.1 ∧
    (optical_depth_550nm.getD i 0 /
        ops.rpow 0.55 (-1 * angstrom_exponent.getD i 0) > 1.1 →
      (evaluateAirMasses ops zenith_angle angstrom_exponent pressure
        optical_depth_550nm).angstrom_turbidity.getD i 0 = 1.1) ∧
    (optical_depth_550nm.getD i 0 /
        ops.rpow 0.55 (-1 * angstrom_exponent.getD i 0) < 0 →
      (evaluateAirMasses ops zenith_angle angstrom_exponent pressure
        optical_depth_550nm).angstrom_turbidity.getD i 0 = 0) ∧
    (0 ≤ optical_depth_550nm.getD i 0 /
        ops.rpow 0.55 (-1 * angstrom_exponent.getD i 0) →
      optical_depth_550nm.getD i 0 /
        ops.rpow 0.55 (-1 * angstrom_exponent.getD i 0) ≤ 1.1 →
      (evaluateAirMasses ops zenith_angle angstrom_exponent pressure
        optical_depth_550nm).angstrom_turbidity.getD i 0 =
        optical_depth_550nm.getD i 0 /
          ops.rpow 0.55 (-1 * angstrom_exponent.getD i 0)) := by
  have hproj : (evaluateAirMasses ops zenith_angle angstrom_exponent
      pressure optical_depth_550nm).angstrom_turbidity =
      ((List.zipWith (fun od a => od / ops.rpow 0.55 (-1 * a))
        optical_depth_550nm angstrom_exponent).map
          (fun x => if x > 1.1 then 1.1 else x)).map
            (fun x => if x < 0 then 0 else x) := rfl
  have hlen1 : i < (List.zipWith (fun od a => od / ops.rpow 0.55 (-1 * a))
      optical_depth_550nm angstrom_exponent).length := by
    rw [List.length_zipWith]; omega
  have hlen2 : i < ((List.zipWith (fun od a => od / ops.rpow 0.55 (-1 * a))
      optical_depth_550nm angstrom_exponent).map
        (fun x => if x > 1.1 then 1.1 else x)).length := by
    rw [List.length_map]; exact hlen1
  have hval : (evaluateAirMasses ops zenith_angle angstrom_exponent
      pressure optical_depth_550nm).angstrom_turbidity.getD i 0 =
      (fun x => if x < 0 then 0 else x)
        ((fun x => if x > 1.1 then 1.1 else x)
          (optical_depth_550nm.getD i 0 /
            ops.rpow 0.55 (-1 * angstrom_exponent.getD i 0))) := by
    rw [hproj, getD_map _ _ i 0 0 hlen2, getD_map _ _ i 0 0 hlen1,
      getD_zipWith _ _ _ i 0 0 0 ho ha]
  rw [hval]
  set raw := optical_depth_550nm.getD i 0 /
    ops.rpow 0.55 (-1 * angstrom_exponent.getD i 0) with hraw
  by_cases h1 : raw > 1.1
  · have hout : (fun x => if x < 0 then 0 else x)
        ((fun x => if x > 1.1 then 1.1 else x) raw) = 1.1 := by
      simp only [if_pos h1]
      norm_num
    rw [hout]
    exact ⟨by norm_num, le_refl _, fun _ => rfl,
      fun hc => absurd hc (by intro hc2; linarith),
      fun _ hc => by linarith⟩
  · by_cases h2 : raw < 0
    · have hout : (fun x => if x < 0 then 0 else x)
          ((fun x => if x > 1.1 then 1.1 else x) raw) = 0 := by
        simp only [if_neg h1, if_pos h2]
      rw [hout]
      exact ⟨le_refl _, by norm_num, fun hc => absurd hc h1,
        fun _ => rfl, fun hc => absurd hc (not_le.mpr h2)⟩
    · have hout : (fun x => if x < 0 then 0 else x)
          ((fun x => if x > 1.1 then 1.1 else x) raw) = raw := by
        simp only [if_neg h1, if_neg h2]
      rw [hout]
      push_neg at h1 h2
      exact ⟨h2, h1, fun hc => absurd hc (not_lt.mpr h1),
        fun hc => absurd hc (not_lt.mpr h2), fun _ _ => rfl⟩

/-- Concrete instance of the turbidity clamp: under `witOps` the raw
turbidity 7 / 1 exceeds 1.1 and is clamped to exactly 1.1. -/
theorem angstrom_turbidity_clamped_witness :
    (evaluateAirMasses witOps [0] [1] [1000] [7]).angstrom_turbidity.getD 0 0
      = 1.1 := by
  refine (angstrom_turbidity_clamped witOps [0] [1] [1000] [7] 0
    (by decide) (by decide)).2.2.1 ?_
  norm_num [witOps]

theorem subNan_zip_same (l : List ℚ) :
    List.zipWith subNan (l.map some) (l.map some) =
      l.map (fun _ => some 0) := by
  induction l with
  | nil => rfl
  | cons a t ih =>
      have h1 : subNan (some a) (some a) = some 0 := by simp [subNan]
      simp only [List.map_cons, List.zipWith_cons_cons, h1, ih]

theorem subNan_zip_shift (δ : ℚ) (l : List ℚ) :
    List.zipWith subNan ((l.map (fun x => x + δ)).map some) (l.map some) =
      l.map (fun _ => some δ) := by
  induction l with
  | nil => rfl
  | cons a t ih =>
      have h1 : subNan (some (a + δ)) (some a) = some δ := by
        simp [subNan]
      simp only [List.map_cons, List.zipWith_cons_cons, h1, ih]

theorem dropNan_map_const_some (c : ℚ) (l : List ℚ) :
    dropNan (l.map (fun _ => some c)) = l.map (fun _ => some c) := by
  rw [dropNan, List.filter_eq_self]
  intro a ha
  obtain ⟨x, _, rfl⟩ := List.mem_map.mp ha
  rfl

theorem meanNan_map_const_some (c : ℚ) (l : List ℚ) (h : l ≠ []) :
    meanNan (l.map (fun _ => some c)) = some c := by
  have hn : l.length ≠ 0 := fun hc => h (List.length_eq_zero.mp hc)
  have hcast : (l.length : ℚ) ≠ 0 := Nat.cast_ne_zero.mpr hn
  have hsum : ∀ t : List ℚ, (t.map (fun _ => c)).sum = t.length * c := by
    intro t
    induction t with
    | nil => simp
    | cons x s ih =>
        simp [ih]
        ring
  have hfm : (l.map (fun _ => some c)).filterMap (fun x => x) =
      l.map (fun _ => c) := by
    rw [List.filterMap_map]
    exact List.filterMap_eq_map _ ▸ rfl
  rw [meanNan, if_neg (by simpa using hn), if_neg (by simp), hfm, hsum l,
    List.length_map]
  congr 1
  exact mul_div_cancel_left₀ c hcast

theorem subNan_none_of (a b : Option ℚ) (h : a = none ∨ b = none) :
    subNan a b = none := by
  rcases h with h | h
  · rw [h]
    rfl
  · rw [h]
    cases a <;> rfl

theorem dropNan_append (u v : List (Option ℚ)) :
    dropNan (u ++ v) = dropNan u ++ dropNan v := by
  simp [dropNan, List.filter_append]

theorem dropNan_cons_none (v : List (Option ℚ)) :
    dropNan (none :: v) = dropNan v := rfl

theorem absNan_none : absNan none = none := rfl

/-- C8, counterexample: on the empty pair of arrays — equal and NaN-free,
so inside the quantification of the claim — all three metrics return the
missing value NaN (the mean of the empty masked error array, as `np.mean`
of an empty array is NaN), not 0. -/
theorem metrics_empty_cex :
    me (([] : List ℚ).map some) (([] : List ℚ).map some) true = none ∧
    mae (([] : List ℚ).map some) (([] : List ℚ).map some) true = none ∧
    rmse (fun x => x) (([] : List ℚ).map some) (([] : List ℚ).map some)
      true = none ∧
    (none : Option ℚ) ≠ some 0 :=
  ⟨rfl, rfl, rfl, fun h => Option.noConfusion h⟩

/-- C8, amended: on equal NaN-free *nonempty* inputs all three metrics
are exactly 0 (on the empty pair they return the missing value NaN, the
mean of an empty error array); adding
the constant offset δ to every prediction makes ME = δ, MAE = |δ| and
RMSE = |δ| (via the square-root properties of the external routine); and a
NaN in either operand at a timestep removes exactly that timestep from the
computation of all three metrics, because the NaN mask is applied to the
error array. -/
theorem metrics_identities (sqrtf : ℚ → ℚ) (l : List ℚ) (δ : ℚ)
    (p₁ p₂ t₁ t₂ : List (Option ℚ)) (a b : Option ℚ) (hne : l ≠ [])
    (hs0 : sqrtf 0 = 0) (hsd : sqrtf (δ ^ 2) = abs δ)
    (hlen : p₁.length = t₁.length) (hab : a = none ∨ b = none) :
    me (l.map some) (l.map some) true = some 0 ∧
    mae (l.map some) (l.map some) true = some 0 ∧
    rmse sqrtf (l.map some) (l.map some) true = some 0 ∧
    me ((l.map (fun x => x + δ)).map some) (l.map some) true = some δ ∧
    mae ((l.map (fun x => x + δ)).map some) (l.map some) true =
      some (abs δ) ∧
    rmse sqrtf ((l.map (fun x => x + δ)).map some) (l.map some) true =
      some (abs δ) ∧
    me (p₁ ++ a :: p₂) (t₁ ++ b :: t₂) true = me (p₁ ++ p₂) (t₁ ++ t₂) true ∧
    mae (p₁ ++ a :: p₂) (t₁ ++ b :: t₂) true =
      mae (p₁ ++ p₂) (t₁ ++ t₂) true ∧
    rmse sqrtf (p₁ ++ a :: p₂) (t₁ ++ b :: t₂) true =
      rmse sqrtf (p₁ ++ p₂) (t₁ ++ t₂) true := by
  have habs : ∀ c : ℚ, (l.map (fun _ => some c)).map absNan =
      l.map (fun _ => some (abs c)) := by
    intro c
    simp [absNan, List.map_map, Function.comp]
  have hsq : ∀ c : ℚ, (l.map (fun _ => some c)).map sqNan =
      l.map (fun _ => some (c ^ 2)) := by
    intro c
    simp [sqNan, List.map_map, Function.comp]
  have hzip : List.zipWith subNan (p₁ ++ a :: p₂) (t₁ ++ b :: t₂) =
      List.zipWith subNan p₁ t₁ ++ none :: List.zipWith subNan p₂ t₂ := by
    rw [List.zipWith_append _ _ _ _ _ hlen]
    simp [subNan_none_of a b hab]
  have hzip2 : List.zipWith subNan (p₁ ++ p₂) (t₁ ++ t₂) =
      List.zipWith subNan p₁ t₁ ++ List.zipWith subNan p₂ t₂ :=
    List.zipWith_append _ _ _ _ _ hlen
  refine ⟨?_, ?_, ?_, ?_, ?_, ?_, ?_, ?_, ?_⟩
  · show meanNan (dropNan (List.zipWith subNan (l.map some) (l.map some)))
      = some 0
    rw [subNan_zip_same, dropNan_map_const_some,
      meanNan_map_const_some _ _ hne]
  · show meanNan (dropNan ((List.zipWith subNan (l.map some)
      (l.map some)).map absNan)) = some 0
    rw [subNan_zip_same, habs, dropNan_map_const_some,
      meanNan_map_const_some _ _ hne]
    norm_num
  · show Option.map sqrtf (meanNan ((dropNan (List.zipWith subNan
      (l.map some) (l.map some))).map sqNan)) = some 0
    rw [subNan_zip_same, dropNan_map_const_some, hsq,
      meanNan_map_const_some _ _ hne]
    have h2 : ((0 : ℚ) ^ 2) = 0 := by norm_num
    rw [h2]
    simp [hs0]
  · show meanNan (dropNan (List.zipWith subNan
      ((l.map (fun x => x + δ)).map some) (l.map some))) = some δ
    rw [subNan_zip_shift, dropNan_map_const_some,
      meanNan_map_const_some _ _ hne]
  · show meanNan (dropNan ((List.zipWith subNan
      ((l.map (fun x => x + δ)).map some) (l.map some)).map absNan)) =
      some (abs δ)
    rw [subNan_zip_shift, habs, dropNan_map_const_some,
      meanNan_map_const_some _ _ hne]
  · show Option.map sqrtf (meanNan ((dropNan (List.zipWith subNan
      ((l.map (fun x => x + δ)).map some) (l.map some))).map sqNan)) =
      some (abs δ)
    rw [subNan_zip_shift, dropNan_map_const_some, hsq,
      meanNan_map_const_some _ _ hne]
    simp [hsd]
  · show meanNan (dropNan (List.zipWith subNan (p₁ ++ a :: p₂)
      (t₁ ++ b :: t₂))) = meanNan (dropNan (List.zipWith subNan
      (p₁ ++ p₂) (t₁ ++ t₂)))
    rw [hzip, hzip2, dropNan_append, dropNan_cons_none, dropNan_append]
  · show meanNan (dropNan ((List.zipWith subNan (p₁ ++ a :: p₂)
      (t₁ ++ b :: t₂)).map absNan)) =
      meanNan (dropNan ((List.zipWith subNan (p₁ ++ p₂)
        (t₁ ++ t₂)).map absNan))
    rw [hzip, hzip2, List.map_append, List.map_append, List.map_cons,
      absNan_none, dropNan_append, dropNan_cons_none, dropNan_append]
  · show Option.map sqrtf (meanNan ((dropNan (List.zipWith subNan
      (p₁ ++ a :: p₂) (t₁ ++ b :: t₂))).map sqNan)) =
      Option.map sqrtf (meanNan ((dropNan (List.zipWith subNan
        (p₁ ++ p₂) (t₁ ++ t₂))).map sqNan))
    rw [hzip, hzip2, dropNan_append, dropNan_cons_none, dropNan_append]

/-- Concrete square-root interpretation for the metrics witness. -/
def witSqrt (x : ℚ) : ℚ := if x = 9 then 3 else 0

/-- Concrete instance of the metric identities: equal inputs give ME 0,
and an offset of -3 gives RMSE 3. -/
theorem metrics_identities_witness :
    me ([(1 : ℚ), 2].map some) ([(1 : ℚ), 2].map some) true = some 0 ∧
    rmse witSqrt (([(1 : ℚ), 2].map (fun x => x + (-3))).map some)
      ([(1 : ℚ), 2].map some) true = some (abs (-3 : ℚ)) := by
  obtain ⟨m1, _, _, _, _, m6, _, _, _⟩ :=
    metrics_identities witSqrt [(1 : ℚ), 2] (-3) [some 1] [] [some 1] []
      none (some 2) (by decide) (by norm_num [witSqrt])
      (by norm_num [witSqrt]) rfl (Or.inl rfl)
  exact ⟨m1, m6⟩

/-- Result value for the empty-input fixture. -/
def emptyResult : REST2Result :=
  { ghi := [], ghi_tracker := [], dni := [], dhi := [], ghi_cs := []
    ghi_tracker_cs := [], dni_cs := [], dhi_cs := [] }

/-- Freshly constructed object fixture: empty aligned arrays and no
`result` attribute yet. -/
def cexState : REST2State :=
  { lat := 0, lon := 0, extraterrestrial_radiation := [], zenith_angle := []
    angstrom_exponent := [], pressure := [], water_vapour := [], ozone := []
    nitrogen_dioxide := [], surface_albedo := [], optical_depth_550nm := []
    cod := [], result := none }

/-- C9, counterexample: calling `convert_radiation` does mutate the
object — on a freshly constructed instance (whose `result` attribute is
absent) the call stores the returned `REST2Result` in `self.result`, so
the post-call state differs from the pre-call state. -/
theorem convert_radiation_mutates_cex :
    convertRadiation witOps cexState DEFAULT_PARAMETERS =
      Except.ok ({ cexState with result := some emptyResult }, emptyResult) ∧
    ({ cexState with result := some emptyResult } : REST2State) ≠
      cexState := by
  constructor
  · rfl
  · intro h
    have h2 := congrArg REST2State.result h
    rw [show ({ cexState with result := some emptyResult } :
      REST2State).result = some emptyResult from rfl,
      show cexState.result = none from rfl] at h2
    cases h2

/-- C9, amended: a successful `convert_radiation` call leaves every stored
input attribute of the object exactly as it was, but it does store the
returned result on the object, assigning `self.result` (rather than
storing nothing). -/
theorem convert_radiation_state (ops : NpOps) (st : REST2State)
    (parameters : List (String × ℚ)) (st2 : REST2State) (r : REST2Result)
    (h : convertRadiation ops st parameters = Except.ok (st2, r)) :
    st2.lat = st.lat ∧ st2.lon = st.lon ∧
    st2.extraterrestrial_radiation = st.extraterrestrial_radiation ∧
    st2.zenith_angle = st.zenith_angle ∧
    st2.angstrom_exponent = st.angstrom_exponent ∧
    st2.pressure = st.pressure ∧
    st2.water_vapour = st.water_vapour ∧
    st2.ozone = st.ozone ∧
    st2.nitrogen_dioxide = st.nitrogen_dioxide ∧
    st2.surface_albedo = st.surface_albedo ∧
    st2.optical_depth_550nm = st.optical_depth_550nm ∧
    st2.cod = st.cod ∧
    st2.result = some r := by
  rw [convertRadiation] at h
  cases hI : internalConvertRadiation ops st.extraterrestrial_radiation
      st.zenith_angle st.angstrom_exponent st.pressure st.water_vapour
      st.ozone st.nitrogen_dioxide st.surface_albedo
      st.optical_depth_550nm st.cod parameters with
  | error e =>
      rw [hI] at h
      simp [Except.map] at h
  | ok s =>
      rw [hI] at h
      simp only [Except.map, Except.ok.injEq, Prod.mk.injEq] at h
      obtain ⟨h1, h2⟩ := h
      subst h1
      subst h2
      exact ⟨rfl, rfl, rfl, rfl, rfl, rfl, rfl, rfl, rfl, rfl, rfl, rfl,
        rfl⟩

/-- Concrete instance of the state-update theorem on the empty fixture:
the stored COD array is unchanged and the result attribute now holds the
returned value. -/
theorem convert_radiation_state_witness :
    ({ cexState with result := some emptyResult } : REST2State).cod =
      cexState.cod ∧
    ({ cexState with result := some emptyResult } : REST2State).result =
      some emptyResult := by
  obtain ⟨_, _, _, _, _, _, _, _, _, _, _, hcod, hres⟩ :=
    convert_radiation_state witOps cexState DEFAULT_PARAMETERS
      { cexState with result := some emptyResult } emptyResult rfl
  exact ⟨hcod, hres⟩

theorem clipColumn_mem (lo hi : ℚ) (l : List (Option ℚ)) :
    ∀ x ∈ clipColumn lo hi l, ∀ v : ℚ, x = some v →
      (lo ≤ hi → lo ≤ v ∧ v ≤ hi) := by
  intro x hx v hv hlh
  obtain ⟨y, _, rfl⟩ := List.mem_map.mp hx
  cases y with
  | none => cases hv
  | some w =>
      have hv2 : some (if w < lo then lo else if w > hi then hi else w) =
          some v := hv
      obtain rfl := Option.some.inj hv2
      by_cases hw1 : w < lo
      · rw [if_pos hw1]
        exact ⟨le_refl lo, hlh⟩
      · rw [if_neg hw1]
        by_cases hw2 : w > hi
        · rw [if_pos hw2]
          exact ⟨hlh, le_refl hi⟩
        · rw [if_neg hw2]
          exact ⟨not_lt.mp hw1, not_lt.mp hw2⟩

/-- C10: after construction every stored atmospheric array obeys its
physical bounds on its non-NaN entries regardless of the raw values —
Angstrom exponent in [0, 2.5], pressure in [300, 1100], water vapour in
[0, 10], ozone in [0, 10], NO2 in [0, 0.03], albedo in [0, 1], COD in
[0, 160] — and the stored COD array (typed NaN-free) maps every raw NaN
entry to 0. -/
theorem init_bounds (cod albedo alpha psurf h2o o3 no2 od550 :
      List (Option ℚ)) (st : StoredVariables)
    (h : initVariables cod albedo (some alpha) psurf h2o o3 no2 od550 =
      Except.ok st) :
    (∀ x ∈ st.angstrom_exponent, ∀ v : ℚ, x = some v →
      0 ≤ v ∧ v ≤ 2.5) ∧
    (∀ x ∈ st.pressure, ∀ v : ℚ, x = some v → 300 ≤ v ∧ v ≤ 1100) ∧
    (∀ x ∈ st.water_vapour, ∀ v : ℚ, x = some v → 0 ≤ v ∧ v ≤ 10) ∧
    (∀ x ∈ st.ozone, ∀ v : ℚ, x = some v → 0 ≤ v ∧ v ≤ 10) ∧
    (∀ x ∈ st.nitrogen_dioxide, ∀ v : ℚ, x = some v →
      0 ≤ v ∧ v ≤ 0.03) ∧
    (∀ x ∈ st.surface_albedo, ∀ v : ℚ, x = some v → 0 ≤ v ∧ v ≤ 1) ∧
    (∀ c ∈ st.cod, 0 ≤ c ∧ c ≤ 160) ∧
    (∀ i : ℕ, i < cod.length → cod.getD i (some 0) = none →
      st.cod.getD i 1 = 0) := by
  simp only [initVariables, Except.ok.injEq] at h
  subst h
  have hgen : ∀ (lo hi : ℚ) (l : List (Option ℚ)) (lo2 hi2 : ℚ),
      lo = lo2 → hi = hi2 → lo ≤ hi →
      ∀ x ∈ clipColumn lo hi l, ∀ v : ℚ, x = some v →
        lo2 ≤ v ∧ v ≤ hi2 := by
    intro lo hi l lo2 hi2 hl2 hh2 hlh x hx v hv
    obtain ⟨hb1, hb2⟩ := clipColumn_mem lo hi l x hx v hv hlh
    exact ⟨hl2 ▸ hb1, hh2 ▸ hb2⟩
  refine ⟨hgen 0.0 2.5 alpha 0 2.5 (by norm_num) rfl (by norm_num),
    hgen 300.0 1100.0 psurf 300 1100 (by norm_num) (by norm_num)
      (by norm_num),
    hgen 0.0 10.0 h2o 0 10 (by norm_num) (by norm_num) (by norm_num),
    hgen 0.0 10.0 o3 0 10 (by norm_num) (by norm_num) (by norm_num),
    hgen 0.0 0.03 no2 0 0.03 (by norm_num) rfl (by norm_num),
    hgen 0.0 1.0 albedo 0 1 (by norm_num) (by norm_num) (by norm_num),
    ?_, ?_⟩
  · intro c hc
    obtain ⟨y, hy, rfl⟩ := List.mem_map.mp hc
    cases y with
    | none =>
        constructor <;> norm_num
    | some w =>
        have hb := hgen 0.0 160.0 cod 0 160 (by norm_num) (by norm_num)
          (by norm_num) (some w) hy w rfl
        simpa using hb
  · intro i hiLen hnone
    have hclen : i < (clipColumn 0.0 160.0 cod).length := by
      rw [clipColumn, List.length_map]
      exact hiLen
    have h1 : (nanToNum (clipColumn 0.0 160.0 cod)).getD i 1 =
        ((clipColumn 0.0 160.0 cod).getD i (some 0)).getD 0 :=
      getD_map _ _ i (some 0) 1 hclen
    have h2 : (clipColumn 0.0 160.0 cod).getD i (some 0) =
        Option.map (fun x => if x < 0.0 then 0.0
          else if x > 160.0 then 160.0 else x) (cod.getD i (some 0)) :=
      getD_map _ cod i (some 0) (some 0) hiLen
    rw [hnone] at h2
    show (nanToNum (clipColumn 0.0 160.0 cod)).getD i 1 = 0
    rw [h1, h2]
    rfl

/-- Concrete instance of the construction-bounds theorem: a raw COD array
whose first entry is NaN stores 0 at that position. -/
theorem init_bounds_witness :
    (nanToNum (clipColumn 0.0 160.0 [none, some 200])).getD 0 1 = 0 := by
  exact (init_bounds [none, some 200] [some 2] [some 5, none] [some 100]
    [some 11] [some (-1)] [some 1] [some 7] _ rfl).2.2.2.2.2.2.2 0
    (by decide) rfl

end Rest2
